import Mathlib

/-!
Verification development for the cart-service repository.

Shallow embedding of `src/cart/models.py`, `src/cart/cart_manager.py`,
`src/cart/service.py`, `src/cart/api_v1/serializers.py` and
`src/cart/api_v1/views.py`.

Modelling conventions:
* Decimal monetary amounts (2 fractional digits) are embedded as `Int`
  values in minor units; the arithmetic used by the source (addition,
  subtraction, multiplication by an integer quantity, `max(0, _)`,
  comparisons) is exact in both representations.
* UUIDs (cart ids, item ids, user ids, product ids) are opaque
  identifiers, embedded as `Nat`; `uuid4` freshness is embedded as a
  counter held in the database state.
* Session keys are embedded as `String` (`Option String` on a cart,
  `None` in the source being `none`).
* Django querysets over the two tables are embedded as explicit lists
  carried in a `DB` record; `get`/`get_or_create`/`update_or_create`
  lookups become first-match searches over those lists, and `CASCADE`
  deletion of a cart's items is explicit.
* Timestamps and the free-form metadata columns (`currency_code`,
  `coupon_code`, `discount_notes`) are not referenced by any verified
  property and are omitted from the records.
-/

namespace CartService

/-- `Cart.CART_STATUS` from `models.py`. -/
inductive CartStatus
  | active
  | abandoned
  | converted
  | merged
deriving DecidableEq

/-- The `Cart` model (`models.py`), restricted to the columns the verified
properties mention.  `user_id` is a nullable reference to the external
user service; `session_key` is the nullable anonymous-owner key. -/
structure Cart where
  id : Nat
  user_id : Option Nat
  session_key : Option String
  status : CartStatus
  shipping_cost : Int
  discount_amount : Int
  tax_amount : Int
deriving DecidableEq

/-- The `CartItem` model (`models.py`): a line item owned by one cart,
with the product snapshot captured at add time. -/
structure CartItem where
  id : Nat
  cartId : Nat
  product_id : Nat
  product_name : String
  product_sku : String
  price_at_addition : Int
  quantity : Int
  image_url : String
  product_category : String
deriving DecidableEq

/-- The persistent state: the `Cart` and `CartItem` tables, plus counters
standing for `uuid4` freshness of newly created rows. -/
structure DB where
  carts : List Cart
  items : List CartItem
  nextId : Nat
  nextItemId : Nat
deriving DecidableEq

/-- The empty database. -/
def DB.empty : DB := { carts := [], items := [], nextId := 0, nextItemId := 0 }

/-! ### Pricing (`models.py` properties `subtotal`, `total`, `total_price`) -/

/-- `CartItem.total_price`: `quantity * price_at_addition`. -/
def itemTotalPrice (i : CartItem) : Int := i.quantity * i.price_at_addition

/-- Sum of `total_price` over the items of cart `cid` in the item table:
`Cart.subtotal` iterates `self.items.all()`. -/
def subtotalItems (cid : Nat) : List CartItem → Int
  | [] => 0
  | i :: l => (if i.cartId = cid then itemTotalPrice i else 0) + subtotalItems cid l

/-- `Cart.subtotal`. -/
def subtotal (db : DB) (cid : Nat) : Int := subtotalItems cid db.items

/-- `Cart.total`: `max(0, subtotal + tax_amount + shipping_cost - discount_amount)`. -/
def total (db : DB) (c : Cart) : Int :=
  max 0 (subtotal db c.id + c.tax_amount + c.shipping_cost - c.discount_amount)

/-! ### Item-table queries and updates -/

/-- Total quantity recorded for product `pid` in cart `cid`. -/
def itemQty (cid pid : Nat) : List CartItem → Int
  | [] => 0
  | i :: l => (if i.cartId = cid ∧ i.product_id = pid then i.quantity else 0) + itemQty cid pid l

/-- Number of item rows for product `pid` in cart `cid`. -/
def itemRows (cid pid : Nat) : List CartItem → Nat
  | [] => 0
  | i :: l => (if i.cartId = cid ∧ i.product_id = pid then 1 else 0) + itemRows cid pid l

/-- Existence test used by the `update_or_create`/`items.get` lookups:
does cart `cid` already hold a row for product `pid`? -/
def hasCartItem (cid pid : Nat) : List CartItem → Bool
  | [] => false
  | i :: l => if i.cartId = cid ∧ i.product_id = pid then true else hasCartItem cid pid l

/-- The rows of cart `cid`, in table order (`cart.items.all()`). -/
def sourceItems (cid : Nat) : List CartItem → List CartItem
  | [] => []
  | i :: l => if i.cartId = cid then i :: sourceItems cid l else sourceItems cid l

/-- `item.quantity += q; item.save()` on the row `items.get(cart=cid, product_id=pid)`:
increment the first matching row. -/
def incFirst (cid pid : Nat) (q : Int) : List CartItem → List CartItem
  | [] => []
  | i :: l =>
    if i.cartId = cid ∧ i.product_id = pid then { i with quantity := i.quantity + q } :: l
    else i :: incFirst cid pid q l

/-- `item.cart = user_cart; item.save()`: repoint the row with primary key
`iid` at cart `target`. -/
def relinkItem (iid target : Nat) (l : List CartItem) : List CartItem :=
  l.map fun i => if i.id = iid then { i with cartId := target } else i

/-- `CASCADE` deletion of the items of cart `cid`. -/
def removeItemsOfCart (cid : Nat) : List CartItem → List CartItem
  | [] => []
  | i :: l => if i.cartId = cid then removeItemsOfCart cid l else i :: removeItemsOfCart cid l

/-! ### Cart-table queries and updates -/

/-- Primary-key lookup (`Cart.objects.get(pk=...)` via the view's queryset). -/
def findCartById (cid : Nat) : List Cart → Option Cart
  | [] => none
  | c :: l => if c.id = cid then some c else findCartById cid l

/-- The lookup of `CartManager.get_user_cart`:
`Cart.objects.get_or_create(user_id=uid, status='active', ...)`. -/
def findActiveUserCart (uid : Nat) : List Cart → Option Cart
  | [] => none
  | c :: l =>
    if c.user_id = some uid ∧ c.status = CartStatus.active then some c
    else findActiveUserCart uid l

/-- The lookup of `CartManager.get_session_cart`:
`Cart.objects.get_or_create(session_key=sk, user_id=None, status='active')`. -/
def findActiveSessionCart (sk : String) : List Cart → Option Cart
  | [] => none
  | c :: l =>
    if c.session_key = some sk ∧ c.user_id = none ∧ c.status = CartStatus.active then some c
    else findActiveSessionCart sk l

/-- The lookup of `MergeCartsView.post`:
`Cart.objects.get(session_key=sk, status='active')` (note: no `user_id`
filter in the source). -/
def findActiveSessionCartAny (sk : String) : List Cart → Option Cart
  | [] => none
  | c :: l =>
    if c.session_key = some sk ∧ c.status = CartStatus.active then some c
    else findActiveSessionCartAny sk l

/--`session_cart.delete()`: remove the cart row with id `cid`. -/
def removeCart (cid : Nat) : List Cart → List Cart
  | [] => []
  | c :: l => if c.id = cid then removeCart cid l else c :: removeCart cid l

/-! ### `CartManager` (`cart_manager.py`) -/

/-- `CartManager.get_user_cart(user_id)`: `get_or_create` keyed on
`(user_id, status='active')` with default `session_key=None`.  Returns the
cart id together with the (possibly extended) database. -/
def get_user_cart (db : DB) (uid : Nat) : Nat × DB :=
  match findActiveUserCart uid db.carts with
  | some c => (c.id, db)
  | none =>
    (db.nextId,
     { db with
        carts := db.carts ++
          [{ id := db.nextId, user_id := some uid, session_key := none,
             status := CartStatus.active,
             shipping_cost := 0, discount_amount := 0, tax_amount := 0 }],
        nextId := db.nextId + 1 })

/-- `CartManager.get_session_cart(session_key)`: `get_or_create` keyed on
`(session_key, user_id=None, status='active')`. -/
def get_session_cart (db : DB) (sk : String) : Nat × DB :=
  match findActiveSessionCart sk db.carts with
  | some c => (c.id, db)
  | none =>
    (db.nextId,
     { db with
        carts := db.carts ++
          [{ id := db.nextId, user_id := none, session_key := some sk,
             status := CartStatus.active,
             shipping_cost := 0, discount_amount := 0, tax_amount := 0 }],
        nextId := db.nextId + 1 })

/-- One iteration of the `CartManager.merge_carts` loop for source item `s`:
if the target cart already has a row for `s.product_id`, add `s.quantity`
to that row's quantity; otherwise relink `s` to the target cart. -/
def mergeOne (target : Nat) (db : DB) (s : CartItem) : DB :=
  if hasCartItem target s.product_id db.items then
    { db with items := incFirst target s.product_id s.quantity db.items }
  else
    { db with items := relinkItem s.id target db.items }

/-- `CartManager.merge_carts(user_cart, session_cart)`: iterate over a
snapshot of the source cart's items (the queryset is evaluated when the
loop starts), merging each into the target, then delete the source cart
(cascading to its remaining items). -/
def merge_carts (db : DB) (target source : Nat) : DB :=
  let db1 := (sourceItems source db.items).foldl (mergeOne target) db
  { db1 with
      carts := removeCart source db1.carts,
      items := removeItemsOfCart source db1.items }

/-! ### External services (`service.py`) -/

/-- The JSON body returned by the product service (`get_product`); the
view reads `name`, `price`, `sku`, `image_url`, `category` and
`validate_product_availability` reads `stock`. -/
structure ProductData where
  name : String
  price : Int
  sku : String
  image_url : String
  category : String
  stock : Int
deriving DecidableEq

/-- Outcome of the outbound HTTP call to the product service, as seen by
`BaseService._make_request`: a 2xx response with a body, a non-2xx
response (`raise_for_status` raises `HTTPError`, a `RequestException`),
a timeout, or another connection-level `RequestException`. -/
inductive Upstream
  | success (d : ProductData)
  | httpError (code : Nat)
  | timeout
  | netError
deriving DecidableEq

/-- `BaseService._make_request`: returns the response on success and
`None` on `Timeout` or any `RequestException` (both are caught). -/
def make_request : Upstream → Option ProductData
  | Upstream.success d => some d
  | _ => none

/-- `ProductService.get_product`: `response.json() if response else None`.
(The tenacity `retry` wrapper never re-fires because `_make_request`
swallows the exceptions, so one outcome fully determines the result.) -/
def get_product (o : Upstream) : Option ProductData := make_request o

/-- `ProductService.validate_product_availability`:
`product and product.get('stock', 0) >= quantity`. -/
def validate_product_availability (o : Upstream) (q : Int) : Bool :=
  match get_product o with
  | some p => decide (q ≤ p.stock)
  | none => false

/-- Outcome of the outbound call to the user service. -/
inductive UserUpstream
  | ok
  | httpError (code : Nat)
  | timeout
  | netError
deriving DecidableEq

/-- `UserService.user_exists`:
`response is not None and response.status_code == 200` (a non-2xx
response already became `None` inside `_make_request`). -/
def user_exists : UserUpstream → Bool
  | UserUpstream.ok => true
  | _ => false

/-! ### API layer (`api_v1/views.py`, `api_v1/serializers.py`) -/

/-- The request-aborting outcomes of the views: the two DRF exception
kinds the views raise deliberately, and an unhandled database
`IntegrityError` (surfaced as a 500 by the framework). -/
inductive ApiError
  | validation (msg : String)
  | notFound (msg : String)
  | integrityError (msg : String)
deriving DecidableEq

/-- The caller's identity as the views see it: `request.user` when
authenticated (together with `request.session.session_key`), otherwise
just the session key (which may be absent). -/
inductive Requester
  | user (uid : Nat) (sk : Option String)
  | anon (sk : Option String)
deriving DecidableEq

/-- `CartDetailView.get_object`: primary-key lookup followed by the
ownership check; a mismatch raises `NotFound("Cart not found")`.
(`str(cart.user_id) != str(user.id)` is equality of the underlying
UUIDs: `str(None)` never equals a UUID string.) -/
def get_object (db : DB) (r : Requester) (cid : Nat) : Except ApiError Cart :=
  match findCartById cid db.carts with
  | none => Except.error (ApiError.notFound "Not found")
  | some c =>
    match r with
    | Requester.user uid _ =>
      if c.user_id ≠ some uid then Except.error (ApiError.notFound "Cart not found")
      else Except.ok c
    | Requester.anon sk =>
      if c.session_key ≠ sk then Except.error (ApiError.notFound "Cart not found")
      else Except.ok c

/-- `GET` on `CartDetailView` (retrieve): `get_object` then serialize. -/
def retrieveCartView (db : DB) (r : Requester) (cid : Nat) : Except ApiError Cart :=
  get_object db r cid

/-- One entry of the nested `items` payload of `CartSerializer`: the only
writable fields of `CartItemSerializer` are `product_id` and `quantity`. -/
structure ItemSpec where
  product_id : Nat
  quantity : Int
deriving DecidableEq

/-- The update payload accepted by `CartSerializer`: each field is
`none` when absent from the request body.  (The writable metadata
columns `currency_code`, `coupon_code`, `discount_notes` are omitted —
no verified property mentions them.) -/
structure CartUpdate where
  user_id : Option Nat
  session_key : Option String
  shipping_cost : Option Int
  discount_amount : Option Int
  tax_amount : Option Int
  items : Option (List ItemSpec)
deriving DecidableEq

/-- `CartSerializer.update`'s `setattr` loop over the scalar fields:
provided fields overwrite, absent fields are kept. -/
def applyFields (c : Cart) (p : CartUpdate) : Cart :=
  { c with
      user_id := match p.user_id with | some u => some u | none => c.user_id,
      session_key := match p.session_key with | some s => some s | none => c.session_key,
      shipping_cost := p.shipping_cost.getD c.shipping_cost,
      discount_amount := p.discount_amount.getD c.discount_amount,
      tax_amount := p.tax_amount.getD c.tax_amount }

/-- `setattr(item, 'quantity', q); item.save()` on the first row of cart
`cid` holding `pid` (the `current_items` dictionary holds one row per
product). -/
def setQtyFirst (cid pid : Nat) (q : Int) : List CartItem → List CartItem
  | [] => []
  | i :: l =>
    if i.cartId = cid ∧ i.product_id = pid then { i with quantity := q } :: l
    else i :: setQtyFirst cid pid q l

/-- Keep an item of cart `cid` only if its product appears in `specs`
(items of other carts are untouched).  This is the effect of the
deletion loop of `update_cart_items`, which removes the pre-existing
rows whose product is absent from the update. -/
def removeStale (cid : Nat) (specs : List ItemSpec) : List CartItem → List CartItem
  | [] => []
  | i :: l =>
    if i.cartId = cid ∧ ¬ (specs.any fun s => s.product_id = i.product_id) then
      removeStale cid specs l
    else i :: removeStale cid specs l

/-- Is there ANOTHER cart row (different primary key) with this non-null
`user_id` and this status?  Mirrors the `unique_together (user_id,
status)` check the database runs on a cart UPDATE. -/
def existsOtherUserStatus (cid u : Nat) (st : CartStatus) : List Cart → Bool
  | [] => false
  | c :: l =>
    if c.id ≠ cid ∧ c.user_id = some u ∧ c.status = st then true
    else existsOtherUserStatus cid u st l

/-- Would saving cart `c` violate the `unique_together (user_id,
status)` constraint of `Cart.Meta`?  Rows with NULL `user_id` never
collide (SQL treats NULLs as distinct in a unique constraint). -/
def cartSaveViolation (carts : List Cart) (c : Cart) : Bool :=
  match c.user_id with
  | none => false
  | some u => existsOtherUserStatus c.id u c.status carts

/-- The scalar part of `CartSerializer.update`: overwrite the provided
fields on the cart row `cid`. -/
def applyCartFields (db : DB) (cid : Nat) (p : CartUpdate) : DB :=
  { db with carts := db.carts.map fun c => if c.id = cid then applyFields c p else c }

/-- The upsert loop of `CartSerializer.update_cart_items`, one spec at a
time: a product already in the cart gets its `quantity` overwritten and
saved; a product NOT in the cart reaches
`CartItem.objects.create(cart=cart, product_id=..., quantity=...)`,
whose INSERT leaves the non-null `price_at_addition` column NULL
(`DecimalField` with no model default; the snapshot fields are read-only
in `CartItemSerializer`, so they are absent from `item_data`) and raises
`IntegrityError`, aborting the loop. -/
def updateItemsLoop (cid : Nat) : DB → List ItemSpec → Except ApiError DB
  | db, [] => Except.ok db
  | db, s :: rest =>
    if hasCartItem cid s.product_id db.items then
      updateItemsLoop cid
        { db with items := setQtyFirst cid s.product_id s.quantity db.items } rest
    else
      Except.error (ApiError.integrityError
        "null value in column price_at_addition violates not-null constraint")

/-- `CartSerializer.update_cart_items`: run the upsert loop (which can
abort with `IntegrityError` on a payload-new product), then delete the
pre-existing rows whose product is absent from the update. -/
def update_cart_items (db : DB) (cid : Nat) (specs : List ItemSpec) :
    Except ApiError DB :=
  match updateItemsLoop cid db specs with
  | Except.error e => Except.error e
  | Except.ok db1 => Except.ok { db1 with items := removeStale cid specs db1.items }

/-- The pure effect of the upsert loop when it does NOT abort: overwrite
each spec's quantity in turn.  Used to state what a successful update
writes. -/
def applyItemSpecs (cid : Nat) : DB → List ItemSpec → DB
  | db, [] => db
  | db, s :: rest =>
    applyItemSpecs cid
      { db with items := setQtyFirst cid s.product_id s.quantity db.items } rest

/-- The state a successful `CartSerializer.update` writes: scalar fields
first, then — when the payload carries items — the quantity overwrites
followed by the stale-row deletion. -/
def applyCartUpdate (db : DB) (cid : Nat) (p : CartUpdate) : DB :=
  match p.items with
  | none => applyCartFields db cid p
  | some specs =>
    { applyItemSpecs cid (applyCartFields db cid p) specs with
        items := removeStale cid specs
          (applyItemSpecs cid (applyCartFields db cid p) specs).items }

/-- `PUT/PATCH` on `CartDetailView`: `get_object` (ownership), then the
serializer's field validation (`CartItemSerializer.validate_quantity`
rejects `quantity < 1`) and object validation (`CartSerializer.validate`
requires `user_id` or `session_key`), then `CartSerializer.update`:
`instance.save()` of the scalar fields — which raises `IntegrityError`
when the rewritten `(user_id, status)` pair collides with another cart
row — followed by `update_cart_items` when the payload carries items. -/
def updateCartView (db : DB) (r : Requester) (cid : Nat) (p : CartUpdate) :
    Except ApiError DB :=
  match get_object db r cid with
  | Except.error e => Except.error e
  | Except.ok c =>
    if (p.items.getD []).any (fun s => s.quantity < 1) then
      Except.error (ApiError.validation "Quantity must be at least 1")
    else if p.user_id = none ∧ p.session_key = none then
      Except.error (ApiError.validation "Either user_id or session_key must be provided")
    else if cartSaveViolation db.carts (applyFields c p) then
      Except.error (ApiError.integrityError
        "duplicate key value violates unique constraint on user_id and status")
    else
      match p.items with
      | none => Except.ok (applyCartFields db c.id p)
      | some specs => update_cart_items (applyCartFields db c.id p) c.id specs

/-- `DELETE` on `CartDetailView`: `get_object`, then `perform_destroy`
sets `status = 'abandoned'` instead of deleting. -/
def destroyCartView (db : DB) (r : Requester) (cid : Nat) : Except ApiError DB :=
  match get_object db r cid with
  | Except.error e => Except.error e
  | Except.ok c =>
    Except.ok { db with
      carts := db.carts.map fun x =>
        if x.id = c.id then { x with status := CartStatus.abandoned } else x }

/-- The `defaults` write of `update_or_create(cart=..., product_id=...)`
in `AddToCartView.create` when the row already exists: every column in
`defaults` — the snapshot columns AND `quantity` — is overwritten on the
matched row. -/
def updateFirstItem (cid pid : Nat) (q : Int) (pd : ProductData) :
    List CartItem → List CartItem
  | [] => []
  | i :: l =>
    if i.cartId = cid ∧ i.product_id = pid then
      { i with
          product_name := pd.name, product_sku := pd.sku,
          price_at_addition := pd.price, quantity := q,
          image_url := pd.image_url, product_category := pd.category } :: l
    else i :: updateFirstItem cid pid q pd l

/-- The `update_or_create` call of `AddToCartView.create`: keyed on
`(cart, product_id)`, with `defaults` overwriting the snapshot columns
AND `quantity`.  Returns the new database and the `created` flag. -/
def update_or_create_item (db : DB) (cid pid : Nat) (q : Int) (pd : ProductData) :
    DB × Bool :=
  if hasCartItem cid pid db.items then
    ({ db with items := updateFirstItem cid pid q pd db.items }, false)
  else
    ({ db with
        items := db.items ++
          [{ id := db.nextItemId, cartId := cid, product_id := pid,
             product_name := pd.name, product_sku := pd.sku,
             price_at_addition := pd.price, quantity := q,
             image_url := pd.image_url, product_category := pd.category }],
        nextItemId := db.nextItemId + 1 }, true)

/-- The item write of `AddToCartView.create`: `update_or_create`, then
`if not created: item.quantity += quantity; item.save()`.
(`AddToCartSerializer.create` performs the same two steps.) -/
def addItemWrite (db : DB) (cid pid : Nat) (q : Int) (pd : ProductData) : DB :=
  let r := update_or_create_item db cid pid q pd
  if r.2 then r.1 else { r.1 with items := incFirst cid pid q r.1.items }

/-- Steps of `AddToCartView.create` after the cart is resolved: the
product-availability check, the product fetch, and the item write. -/
def addItemToCart (db : DB) (cid : Nat) (po : Upstream) (pid : Nat) (q : Int) :
    DB × Except ApiError Unit :=
  if validate_product_availability po q = false then
    (db, Except.error (ApiError.validation "Product not available in requested quantity"))
  else
    match get_product po with
    | none => (db, Except.error (ApiError.validation "Product not found"))
    | some pd => (addItemWrite db cid pid q pd, Except.ok ())

/-- `AddToCartView.create`: serializer validation first
(`AddToCartSerializer.quantity` has `min_value=1`), then `get_cart`
(user-existence check and `CartManager` get-or-create; an anonymous
request without a session key gets a fresh key `fresh` from
`session.create()`), then the product checks and the item write.
Returns the final database and the request outcome. -/
def addToCartView (db : DB) (r : Requester) (fresh : String) (uo : UserUpstream)
    (po : Upstream) (pid : Nat) (q : Int) : DB × Except ApiError Unit :=
  if q < 1 then
    (db, Except.error (ApiError.validation "Ensure this value is greater than or equal to 1"))
  else
    match r with
    | Requester.user uid _ =>
      if user_exists uo = false then
        (db, Except.error (ApiError.validation "User does not exist"))
      else
        let rc := get_user_cart db uid
        addItemToCart rc.2 rc.1 po pid q
    | Requester.anon sk =>
      let rc := get_session_cart db (sk.getD fresh)
      addItemToCart rc.2 rc.1 po pid q

/-- All carts of the given owner, any status (`CartListView.get_queryset`
filters). -/
def cartsOfUser (uid : Nat) : List Cart → List Cart
  | [] => []
  | c :: l => if c.user_id = some uid then c :: cartsOfUser uid l else cartsOfUser uid l

/-- All carts carrying the given session key, any status. -/
def cartsOfSession (sk : String) : List Cart → List Cart
  | [] => []
  | c :: l => if c.session_key = some sk then c :: cartsOfSession sk l else cartsOfSession sk l

/-- `CartListView.get_queryset`: for an authenticated user, the user's
carts if `UserService.user_exists` returned true and the empty queryset
otherwise; for an anonymous caller, the session's carts (or nothing
without a session key). -/
def cartListView (db : DB) (r : Requester) (uo : UserUpstream) : List Cart :=
  match r with
  | Requester.user uid _ =>
    if user_exists uo then cartsOfUser uid db.carts else []
  | Requester.anon (some sk) => cartsOfSession sk db.carts
  | Requester.anon none => []

/-- The body of a `MergeCartsView` response: an error, the bare
`{'detail': ...}` message, or the serialized merged cart. -/
inductive MergeResp
  | err (e : ApiError)
  | detail (msg : String)
  | cart (cid : Nat)
deriving DecidableEq

/-- `MergeCartsView.post`: requires authentication; without a session key
returns the detail message untouched; otherwise it FIRST resolves (and
possibly creates) the user's active cart, then looks for an active cart
with the session key — if none, it returns the detail message (with the
user cart possibly just created), else it merges and returns the user
cart. -/
def mergeCartsView (db : DB) (r : Requester) : DB × MergeResp :=
  match r with
  | Requester.anon _ => (db, MergeResp.err (ApiError.validation "User must be authenticated"))
  | Requester.user uid sk =>
    match sk with
    | none => (db, MergeResp.detail "No session cart to merge")
    | some skey =>
      let rc := get_user_cart db uid
      match findActiveSessionCartAny skey rc.2.carts with
      | none => (rc.2, MergeResp.detail "No session cart to merge")
      | some sc => (merge_carts rc.2 rc.1 sc.id, MergeResp.cart rc.1)

/-! ### The one-active-cart-per-owner invariant and the operation alphabet -/

/-- Number of active carts owned by user `uid`. -/
def countUserActive (uid : Nat) : List Cart → Nat
  | [] => 0
  | c :: l =>
    (if c.user_id = some uid ∧ c.status = CartStatus.active then 1 else 0) +
      countUserActive uid l

/-- Number of active anonymous carts carrying session key `sk`. -/
def countSessionActive (sk : String) : List Cart → Nat
  | [] => 0
  | c :: l =>
    (if c.user_id = none ∧ c.session_key = some sk ∧ c.status = CartStatus.active
     then 1 else 0) + countSessionActive sk l

/-- At most one active cart per owner: per `user_id` for user-owned
carts, per `session_key` for anonymous carts. -/
def UniqueActive (db : DB) : Prop :=
  (∀ uid, countUserActive uid db.carts ≤ 1) ∧
  (∀ sk, countSessionActive sk db.carts ≤ 1)

/-- The operations of the service, as exposed by `CartManager` and the
API views. -/
inductive Op
  | opGetUser (uid : Nat)
  | opGetSession (sk : String)
  | opAddItem (r : Requester) (fresh : String) (uo : UserUpstream) (po : Upstream)
      (pid : Nat) (q : Int)
  | opUpdate (r : Requester) (cid : Nat) (p : CartUpdate)
  | opClose (r : Requester) (cid : Nat)
  | opMerge (r : Requester)
deriving DecidableEq

/-- The state reached after one operation (a failed API call leaves the
state as the view left it). -/
def step (db : DB) : Op → DB
  | Op.opGetUser uid => (get_user_cart db uid).2
  | Op.opGetSession sk => (get_session_cart db sk).2
  | Op.opAddItem r fresh uo po pid q => (addToCartView db r fresh uo po pid q).1
  | Op.opUpdate r cid p =>
    match updateCartView db r cid p with
    | Except.ok db1 => db1
    | Except.error _ => db
  | Op.opClose r cid =>
    match destroyCartView db r cid with
    | Except.ok db1 => db1
    | Except.error _ => db
  | Op.opMerge r => (mergeCartsView db r).1

/-- Is the operation a cart update through the detail endpoint? -/
def Op.isCartUpdate : Op → Bool
  | Op.opUpdate _ _ _ => true
  | _ => false

/-! ### Derived predicates used to state the claims -/

/-- The requester is NOT the owner of the cart, in the sense of
`CartDetailView.get_object`: an authenticated requester whose user id
differs from the cart's `user_id`, or an anonymous requester whose
session key differs from the cart's `session_key`. -/
def ownerMismatch (r : Requester) (c : Cart) : Prop :=
  match r with
  | Requester.user uid _ => c.user_id ≠ some uid
  | Requester.anon sk => c.session_key ≠ sk

/-- The requester IS the owner of the cart under the same check. -/
def ownerMatch (r : Requester) (c : Cart) : Prop :=
  match r with
  | Requester.user uid _ => c.user_id = some uid
  | Requester.anon sk => c.session_key = sk

instance (r : Requester) (c : Cart) : Decidable (ownerMismatch r c) := by
  unfold ownerMismatch
  cases r <;> infer_instance

instance (r : Requester) (c : Cart) : Decidable (ownerMatch r c) := by
  unfold ownerMatch
  cases r <;> infer_instance

/-- Total quantity carried by the items of a list whose product is `p`
(used to sum a merge source's contribution per product). -/
def listQty (p : Nat) : List CartItem → Int
  | [] => 0
  | i :: l => (if i.product_id = p then i.quantity else 0) + listQty p l

/-- The snapshot columns of `j` agree with those of `i`. -/
def snapEq (j i : CartItem) : Prop :=
  j.product_name = i.product_name ∧ j.product_sku = i.product_sku ∧
  j.price_at_addition = i.price_at_addition ∧ j.image_url = i.image_url ∧
  j.product_category = i.product_category

/-! ### Concrete instances used by counterexamples and witnesses -/

/-- A product snapshot as returned by the product service. -/
def pdEx : ProductData :=
  { name := "Example Product", price := 1999, sku := "PROD-001",
    image_url := "https://example.com/product.jpg", category := "Example Category",
    stock := 100 }

/-- State after an anonymous caller adds product 7 with quantity 2 to an
empty store. -/
def c1db1 : DB :=
  (addToCartView DB.empty (Requester.anon (some "s")) "f" UserUpstream.ok
    (Upstream.success pdEx) 7 2).1

/-- State after the same caller adds product 7 again with quantity 3. -/
def c1db2 : DB :=
  (addToCartView c1db1 (Requester.anon (some "s")) "f" UserUpstream.ok
    (Upstream.success pdEx) 7 3).1

/-- A cart whose discount exceeds subtotal plus fees. -/
def c2cart : Cart :=
  { id := 3, user_id := some 1, session_key := none, status := CartStatus.active,
    shipping_cost := 2, discount_amount := 100, tax_amount := 5 }

/-- A one-cart store for the discount-boundary witness. -/
def c2db : DB := { carts := [c2cart], items := [], nextId := 4, nextItemId := 0 }

/-- Target cart B of the spec's merge example: user 5's active cart. -/
def cartB : Cart :=
  { id := 0, user_id := some 5, session_key := none, status := CartStatus.active,
    shipping_cost := 0, discount_amount := 0, tax_amount := 0 }

/-- Source cart A of the spec's merge example: an anonymous session cart. -/
def cartA : Cart :=
  { id := 1, user_id := none, session_key := some "s", status := CartStatus.active,
    shipping_cost := 0, discount_amount := 0, tax_amount := 0 }

/-- Cart B's row for product X (id 120): quantity 3, recorded price 500. -/
def itemBX : CartItem :=
  { id := 10, cartId := 0, product_id := 120, product_name := "X",
    product_sku := "sx", price_at_addition := 500, quantity := 3,
    image_url := "", product_category := "" }

/-- Cart B's row for product Y (id 121): quantity 1. -/
def itemBY : CartItem :=
  { id := 11, cartId := 0, product_id := 121, product_name := "Y",
    product_sku := "sy", price_at_addition := 700, quantity := 1,
    image_url := "", product_category := "" }

/-- Cart A's row for product X: quantity 2, recorded at a different price. -/
def itemAX : CartItem :=
  { id := 12, cartId := 1, product_id := 120, product_name := "X",
    product_sku := "sx", price_at_addition := 600, quantity := 2,
    image_url := "", product_category := "" }

/-- The spec's merge example: B = {X qty 3, Y qty 1}, A = {X qty 2}. -/
def dbEx : DB := { carts := [cartB, cartA], items := [itemBX, itemBY, itemAX], nextId := 2, nextItemId := 13 }

/-- Store holding only a mismatched cart, for the ownership witness. -/
def c5db : DB :=
  { carts := [{ id := 9, user_id := some 2, session_key := none,
                status := CartStatus.active,
                shipping_cost := 0, discount_amount := 0, tax_amount := 0 }],
    items := [], nextId := 10, nextItemId := 0 }

/-- An abandoned cart owned by user 2, for the status-check witness. -/
def c10cart : Cart :=
  { id := 4, user_id := some 2, session_key := none, status := CartStatus.abandoned,
    shipping_cost := 0, discount_amount := 0, tax_amount := 0 }

/-- The abandoned cart's existing row for product 8. -/
def c10item : CartItem :=
  { id := 20, cartId := 4, product_id := 8, product_name := "P",
    product_sku := "s8", price_at_addition := 100, quantity := 1,
    image_url := "", product_category := "" }

/-- A store whose only cart is abandoned and holds product 8. -/
def c10db : DB :=
  { carts := [c10cart], items := [c10item], nextId := 5, nextItemId := 21 }

/-- An update payload that rewrites the quantity of the cart's existing
product 8. -/
def c10upd : CartUpdate :=
  { user_id := some 2, session_key := none, shipping_cost := none,
    discount_amount := none, tax_amount := none,
    items := some [{ product_id := 8, quantity := 2 }] }

/-- An update payload that introduces product 9, which the cart does not
hold. -/
def c10updNew : CartUpdate :=
  { user_id := some 2, session_key := none, shipping_cost := none,
    discount_amount := none, tax_amount := none,
    items := some [{ product_id := 9, quantity := 2 }] }

/-- The same store with the cart active instead of abandoned. -/
def c10dbActive : DB :=
  { carts := [{ c10cart with status := CartStatus.active }],
    items := [c10item], nextId := 5, nextItemId := 21 }

/-- A store holding one cart of user 1, for the conflation counterexample. -/
def c6db : DB :=
  { carts := [{ id := 0, user_id := some 1, session_key := none,
                status := CartStatus.active,
                shipping_cost := 0, discount_amount := 0, tax_amount := 0 }],
    items := [], nextId := 1, nextItemId := 0 }

/-- A store with an active cart of user 1 and no session cart, for the
merge-no-op witness. -/
def c7db : DB :=
  { carts := [{ id := 0, user_id := some 1, session_key := none,
                status := CartStatus.active,
                shipping_cost := 0, discount_amount := 0, tax_amount := 0 }],
    items := [], nextId := 1, nextItemId := 0 }

/-- Two anonymous active carts with distinct session keys, reached from
the empty store by two get-or-create calls. -/
def c4db : DB := step (step DB.empty (Op.opGetSession "a")) (Op.opGetSession "b")

/-- An update payload that rewrites a cart's `session_key` to `"a"`. -/
def c4upd : CartUpdate :=
  { user_id := none, session_key := some "a", shipping_cost := none,
    discount_amount := none, tax_amount := none, items := none }

/-- The state after the session-`"b"` owner relabels their cart with
session key `"a"` through the detail endpoint. -/
def c4db' : DB := step c4db (Op.opUpdate (Requester.anon (some "b")) 1 c4upd)

/-! ## Theorems -/

/-- C2: for every cart, the derived total equals
`max(0, subtotal + tax_amount + shipping_cost - discount_amount)`; it is
never negative, and when the discount reaches or exceeds subtotal plus
fees the total is exactly 0. -/
theorem c2_total_clamped (db : DB) (c : Cart) :
    total db c =
      max 0 (subtotal db c.id + c.tax_amount + c.shipping_cost - c.discount_amount) ∧
    0 ≤ total db c ∧
    (subtotal db c.id + c.tax_amount + c.shipping_cost ≤ c.discount_amount →
      total db c = 0) := by
  refine ⟨rfl, le_max_left _ _, fun h => ?_⟩
  unfold total
  omega

/-- C2 witness: on a concrete cart whose discount (100) exceeds subtotal
plus fees (0 + 5 + 2), the total is exactly 0. -/
theorem c2_total_clamped_witness :
    subtotal c2db c2cart.id + c2cart.tax_amount + c2cart.shipping_cost ≤
      c2cart.discount_amount ∧ total c2db c2cart = 0 :=
  ⟨by decide, (c2_total_clamped c2db c2cart).2.2 (by decide)⟩

/-- C9: an add-item request with quantity below 1 fails serializer
validation before the cart is resolved: the state is returned untouched
together with the invalid-input error, for every requester and every
upstream outcome. -/
theorem c9_invalid_quantity_no_write (db : DB) (r : Requester) (fresh : String)
    (uo : UserUpstream) (po : Upstream) (pid : Nat) (q : Int) (h : q < 1) :
    addToCartView db r fresh uo po pid q =
      (db, Except.error
        (ApiError.validation "Ensure this value is greater than or equal to 1")) := by
  unfold addToCartView
  rw [if_pos h]

/-- C9 witness: adding product 7 with quantity 0 to the empty store
fails with the invalid-input error and leaves the store empty. -/
theorem c9_invalid_quantity_no_write_witness :
    (0 : Int) < 1 ∧
    addToCartView DB.empty (Requester.anon (some "s")) "f" UserUpstream.ok
        (Upstream.success pdEx) 7 0 =
      (DB.empty, Except.error
        (ApiError.validation "Ensure this value is greater than or equal to 1")) :=
  ⟨by decide,
   c9_invalid_quantity_no_write DB.empty (Requester.anon (some "s")) "f"
     UserUpstream.ok (Upstream.success pdEx) 7 0 (by decide)⟩

/-- C1 (divergence of the code from the claim): adding product 7 with
quantity 2 and then again with quantity 3 leaves exactly one row, but
its quantity is 6 = 3 + 3, not 2 + 3: the `defaults` of the
`update_or_create` call overwrite the existing quantity with the new one
before the explicit `+=` increments it, so the second add yields twice
the second quantity. -/
theorem c1_add_twice_quantity_overwritten :
    itemRows 0 7 c1db2.items = 1 ∧
    itemQty 0 7 c1db2.items = 6 ∧
    ¬ itemQty 0 7 c1db2.items = 2 + 3 := by
  decide

/-- C5: retrieving, updating or closing a cart by id as a requester who
is not its owner (authenticated with a different user id, or anonymous
with a different session key) fails with `NotFound` — never with a
forbidden error and never returning the cart. -/
theorem c5_ownership_mismatch_not_found (db : DB) (r : Requester) (cid : Nat)
    (c : Cart) (hfind : findCartById cid db.carts = some c)
    (hmm : ownerMismatch r c) :
    retrieveCartView db r cid = Except.error (ApiError.notFound "Cart not found") ∧
    (∀ p, updateCartView db r cid p =
      Except.error (ApiError.notFound "Cart not found")) ∧
    destroyCartView db r cid = Except.error (ApiError.notFound "Cart not found") := by
  have hobj : get_object db r cid = Except.error (ApiError.notFound "Cart not found") := by
    cases r with
    | user uid sk =>
      simp only [ownerMismatch] at hmm
      simp [get_object, hfind, hmm]
    | anon sk =>
      simp only [ownerMismatch] at hmm
      simp [get_object, hfind, hmm]
  refine ⟨?_, fun p => ?_, ?_⟩
  · unfold retrieveCartView
    exact hobj
  · simp [updateCartView, hobj]
  · simp [destroyCartView, hobj]

/-- C5 witness: user 3 asking for cart 9, which belongs to user 2, gets
`NotFound` from all three operations. -/
theorem c5_ownership_mismatch_not_found_witness :
    findCartById 9 c5db.carts =
      some { id := 9, user_id := some 2, session_key := none,
             status := CartStatus.active,
             shipping_cost := 0, discount_amount := 0, tax_amount := 0 } ∧
    retrieveCartView c5db (Requester.user 3 none) 9 =
      Except.error (ApiError.notFound "Cart not found") ∧
    destroyCartView c5db (Requester.user 3 none) 9 =
      Except.error (ApiError.notFound "Cart not found") := by
  have h := c5_ownership_mismatch_not_found c5db (Requester.user 3 none) 9
    { id := 9, user_id := some 2, session_key := none, status := CartStatus.active,
      shipping_cost := 0, discount_amount := 0, tax_amount := 0 }
    (by decide) (by decide)
  exact ⟨by decide, h.1, h.2.2⟩

lemma setQtyFirst_hasCartItem (c p cid pid : Nat) (q : Int) :
    ∀ l, hasCartItem c p (setQtyFirst cid pid q l) = hasCartItem c p l := by
  intro l
  induction l with
  | nil => rfl
  | cons i l ih =>
    unfold setQtyFirst
    by_cases hc : i.cartId = cid ∧ i.product_id = pid
    · rw [if_pos hc]
      simp [hasCartItem]
    · rw [if_neg hc]
      show hasCartItem c p (i :: setQtyFirst cid pid q l) = hasCartItem c p (i :: l)
      unfold hasCartItem
      rw [ih]

lemma updateItemsLoop_ok (cid : Nat) :
    ∀ (specs : List ItemSpec) (db : DB),
      (∀ s ∈ specs, hasCartItem cid s.product_id db.items = true) →
      updateItemsLoop cid db specs = Except.ok (applyItemSpecs cid db specs) := by
  intro specs
  induction specs with
  | nil => intro db _; rfl
  | cons s rest ih =>
    intro db h
    unfold updateItemsLoop
    rw [if_pos (h s (List.mem_cons_self _ _))]
    show updateItemsLoop cid
        { db with items := setQtyFirst cid s.product_id s.quantity db.items } rest =
      Except.ok (applyItemSpecs cid
        { db with items := setQtyFirst cid s.product_id s.quantity db.items } rest)
    apply ih
    intro s' hs'
    show hasCartItem cid s'.product_id
      (setQtyFirst cid s.product_id s.quantity db.items) = true
    rw [setQtyFirst_hasCartItem]
    exact h s' (List.mem_cons_of_mem _ hs')

lemma update_cart_items_ok (db : DB) (cid : Nat) (specs : List ItemSpec)
    (h : ∀ s ∈ specs, hasCartItem cid s.product_id db.items = true) :
    update_cart_items db cid specs = Except.ok
      { applyItemSpecs cid db specs with
        items := removeStale cid specs (applyItemSpecs cid db specs).items } := by
  unfold update_cart_items
  rw [updateItemsLoop_ok cid specs db h]

/-- C10 counterexample: replacing the items of the abandoned cart with a
payload naming product 9 — which the cart does not hold — does NOT
succeed: the row creation inserts NULL into the non-null
`price_at_addition` column and the request aborts with an integrity
error.  The identical request against the same cart in status `active`
fails in exactly the same way, so the failure comes from the missing
snapshot columns, not from any status check. -/
theorem c10_new_item_update_fails_counterexample :
    updateCartView c10db (Requester.user 2 none) 4 c10updNew =
      Except.error (ApiError.integrityError
        "null value in column price_at_addition violates not-null constraint") ∧
    updateCartView c10dbActive (Requester.user 2 none) 4 c10updNew =
      Except.error (ApiError.integrityError
        "null value in column price_at_addition violates not-null constraint") :=
  ⟨rfl, rfl⟩

/-- C10 (amended): no code path checks the cart's status — for an
owner-matched request whose payload is valid, names only products the
cart already holds (a payload-new product makes the row INSERT fail
with an integrity error, whatever the status), and whose `user_id`
rewrite does not collide with another cart of the same
`(user_id, status)`, the update succeeds even when the cart is
abandoned, converted or merged, and writes the scalar fields, the
quantity overwrites and the stale-row deletions. -/
theorem c10_update_ignores_status (db : DB) (r : Requester) (cid : Nat) (c : Cart)
    (p : CartUpdate) (hfind : findCartById cid db.carts = some c)
    (hown : ownerMatch r c)
    (_hstatus : c.status = CartStatus.abandoned ∨ c.status = CartStatus.converted ∨
      c.status = CartStatus.merged)
    (hq : ∀ s ∈ p.items.getD [], 1 ≤ s.quantity)
    (hpay : ¬ (p.user_id = none ∧ p.session_key = none))
    (hnocol : cartSaveViolation db.carts (applyFields c p) = false)
    (hexist : ∀ s ∈ p.items.getD [], hasCartItem c.id s.product_id db.items = true) :
    updateCartView db r cid p = Except.ok (applyCartUpdate db c.id p) := by
  have hobj : get_object db r cid = Except.ok c := by
    cases r with
    | user uid sk =>
      simp only [ownerMatch] at hown
      simp [get_object, hfind, hown]
    | anon sk =>
      simp only [ownerMatch] at hown
      simp [get_object, hfind, hown]
  have hq' : ((p.items.getD []).any fun s => s.quantity < 1) = false := by
    rw [List.any_eq_false]
    intro s hs
    simpa using not_lt.mpr (hq s hs)
  have h1 : ¬ (((p.items.getD []).any fun s => s.quantity < 1) = true) :=
    fun h => Bool.noConfusion (hq'.symm.trans h)
  have h3 : ¬ (cartSaveViolation db.carts (applyFields c p) = true) :=
    fun h => Bool.noConfusion (hnocol.symm.trans h)
  simp only [updateCartView, hobj]
  rw [if_neg h1, if_neg hpay, if_neg h3]
  cases hit : p.items with
  | none =>
    show Except.ok (applyCartFields db c.id p) = Except.ok (applyCartUpdate db c.id p)
    simp only [applyCartUpdate, hit]
  | some specs =>
    show update_cart_items (applyCartFields db c.id p) c.id specs =
      Except.ok (applyCartUpdate db c.id p)
    simp only [applyCartUpdate, hit]
    apply update_cart_items_ok
    intro s hs
    have hs' : s ∈ p.items.getD [] := by
      rw [hit]
      exact hs
    exact hexist s hs'

/-- C10 witness: rewriting the quantity of the abandoned cart's existing
product 8 succeeds despite the abandoned status. -/
theorem c10_update_ignores_status_witness :
    c10cart.status = CartStatus.abandoned ∧
    updateCartView c10db (Requester.user 2 none) 4 c10upd =
      Except.ok (applyCartUpdate c10db 4 c10upd) :=
  ⟨by decide,
   c10_update_ignores_status c10db (Requester.user 2 none) 4 c10cart c10upd
     (by decide) (by decide) (Or.inl (by decide)) (by decide) (by decide)
     (by decide) (by decide)⟩

/-- C6 counterexample: with a product-service timeout, adding a product
produces exactly the same state and the same validation error as with an
upstream 404 (product not found) — the outcomes are conflated, not
distinct; likewise list-carts under a user-service timeout returns the
same empty list as for a nonexistent user even though the store holds a
cart of that user. -/
theorem c6_upstream_conflated_counterexample :
    addToCartView c6db (Requester.user 1 (some "s")) "f" UserUpstream.ok
        Upstream.timeout 7 1 =
      addToCartView c6db (Requester.user 1 (some "s")) "f" UserUpstream.ok
        (Upstream.httpError 404) 7 1 ∧
    cartListView c6db (Requester.user 1 (some "s")) UserUpstream.timeout =
      cartListView c6db (Requester.user 1 (some "s")) (UserUpstream.httpError 404) ∧
    cartListView c6db (Requester.user 1 (some "s")) UserUpstream.timeout = [] ∧
    cartsOfUser 1 c6db.carts ≠ [] :=
  ⟨rfl, rfl, rfl, by decide⟩

/-- C6 (amended): an upstream product-service failure (timeout, broken
connection, or non-2xx response) is NOT surfaced as a distinct retryable
outcome: `get_product` collapses all of them to `none`, so add-item
returns exactly the same result as for a missing product, and a
user-service failure makes list-carts return the same empty list as for
a nonexistent user. -/
theorem c6_upstream_failure_conflated (db : DB) (r : Requester) (fresh : String)
    (uo : UserUpstream) (pid : Nat) (q : Int) :
    addToCartView db r fresh uo Upstream.timeout pid q =
      addToCartView db r fresh uo (Upstream.httpError 404) pid q ∧
    addToCartView db r fresh uo Upstream.netError pid q =
      addToCartView db r fresh uo Upstream.timeout pid q ∧
    get_product Upstream.timeout = none ∧
    get_product (Upstream.httpError 404) = none ∧
    (∀ uid s, cartListView db (Requester.user uid s) UserUpstream.timeout =
      cartListView db (Requester.user uid s) (UserUpstream.httpError 404)) := by
  have key : ∀ (d : DB) (cid : Nat),
      addItemToCart d cid Upstream.timeout pid q =
        addItemToCart d cid (Upstream.httpError 404) pid q ∧
      addItemToCart d cid Upstream.netError pid q =
        addItemToCart d cid Upstream.timeout pid q :=
    fun d cid => ⟨rfl, rfl⟩
  refine ⟨?_, ?_, rfl, rfl, fun uid s => rfl⟩
  · unfold addToCartView
    split
    · rfl
    · cases r with
      | user uid sk =>
        split
        · rfl
        · exact (key _ _).1
      | anon sk => exact (key _ _).1
  · unfold addToCartView
    split
    · rfl
    · cases r with
      | user uid sk =>
        split
        · rfl
        · exact (key _ _).2
      | anon sk => exact (key _ _).2

/-- C7 counterexample: calling merge with a session key but no session
cart, starting from the empty store, returns the bare detail message
(not the user's cart) and CREATES the user's active cart as a side
effect — the call is not mutation-free. -/
theorem c7_merge_creates_user_cart_counterexample :
    (mergeCartsView DB.empty (Requester.user 1 (some "s"))).2 =
      MergeResp.detail "No session cart to merge" ∧
    (mergeCartsView DB.empty (Requester.user 1 (some "s"))).1 ≠ DB.empty ∧
    countUserActive 1 (mergeCartsView DB.empty (Requester.user 1 (some "s"))).1.carts
      = 1 := by
  decide

/-- C7 (amended): when no active cart carries the requester's session
key, merge succeeds without error and returns the detail message; no
item state changes and no existing cart changes, but the user's active
cart is first resolved with get-or-create, so it is created when absent;
when the user already had an active cart, or when the requester has no
session key at all, the state is entirely unchanged. -/
theorem c7_merge_without_session_cart (db : DB) (uid : Nat) (skey : String)
    (h : findActiveSessionCartAny skey ((get_user_cart db uid).2).carts = none) :
    mergeCartsView db (Requester.user uid (some skey)) =
      ((get_user_cart db uid).2, MergeResp.detail "No session cart to merge") ∧
    ((get_user_cart db uid).2).items = db.items ∧
    (∀ c, findActiveUserCart uid db.carts = some c → (get_user_cart db uid).2 = db) ∧
    mergeCartsView db (Requester.user uid none) =
      (db, MergeResp.detail "No session cart to merge") := by
  refine ⟨?_, ?_, fun c hc => ?_, rfl⟩
  · simp [mergeCartsView, h]
  · unfold get_user_cart
    cases hf : findActiveUserCart uid db.carts <;> simp
  · simp [get_user_cart, hc]

/-- C7 witness: with user 1's active cart already present and no session
cart, the merge call returns the detail message and the state is
unchanged. -/
theorem c7_merge_without_session_cart_witness :
    findActiveSessionCartAny "s" ((get_user_cart c7db 1).2).carts = none ∧
    mergeCartsView c7db (Requester.user 1 (some "s")) =
      ((get_user_cart c7db 1).2, MergeResp.detail "No session cart to merge") ∧
    (get_user_cart c7db 1).2 = c7db :=
  ⟨by decide,
   (c7_merge_without_session_cart c7db 1 "s" (by decide)).1,
   (c7_merge_without_session_cart c7db 1 "s" (by decide)).2.2.1
     { id := 0, user_id := some 1, session_key := none, status := CartStatus.active,
       shipping_cost := 0, discount_amount := 0, tax_amount := 0 } (by decide)⟩

/-! ## C4: the one-active-cart-per-owner invariant -/

lemma countUserActive_append (uid : Nat) (l1 l2 : List Cart) :
    countUserActive uid (l1 ++ l2) = countUserActive uid l1 + countUserActive uid l2 := by
  induction l1 with
  | nil => simp [countUserActive]
  | cons c l ih =>
    show (if c.user_id = some uid ∧ c.status = CartStatus.active then 1 else 0) +
        countUserActive uid (l ++ l2) =
      (if c.user_id = some uid ∧ c.status = CartStatus.active then 1 else 0) +
        countUserActive uid l + countUserActive uid l2
    rw [ih]
    omega

lemma countSessionActive_append (sk : String) (l1 l2 : List Cart) :
    countSessionActive sk (l1 ++ l2) =
      countSessionActive sk l1 + countSessionActive sk l2 := by
  induction l1 with
  | nil => simp [countSessionActive]
  | cons c l ih =>
    show (if c.user_id = none ∧ c.session_key = some sk ∧
          c.status = CartStatus.active then 1 else 0) +
        countSessionActive sk (l ++ l2) =
      (if c.user_id = none ∧ c.session_key = some sk ∧
          c.status = CartStatus.active then 1 else 0) +
        countSessionActive sk l + countSessionActive sk l2
    rw [ih]
    omega

lemma findActiveUserCart_none_count (uid : Nat) :
    ∀ l, findActiveUserCart uid l = none → countUserActive uid l = 0 := by
  intro l
  induction l with
  | nil => intro _; rfl
  | cons c l ih =>
    intro h
    unfold findActiveUserCart at h
    by_cases hc : c.user_id = some uid ∧ c.status = CartStatus.active
    · rw [if_pos hc] at h
      cases h
    · rw [if_neg hc] at h
      simp [countUserActive, hc, ih h]

lemma findActiveSessionCart_none_count (sk : String) :
    ∀ l, findActiveSessionCart sk l = none → countSessionActive sk l = 0 := by
  intro l
  induction l with
  | nil => intro _; rfl
  | cons c l ih =>
    intro h
    unfold findActiveSessionCart at h
    by_cases hc : c.session_key = some sk ∧ c.user_id = none ∧
        c.status = CartStatus.active
    · rw [if_pos hc] at h
      cases h
    · rw [if_neg hc] at h
      have hc' : ¬ (c.user_id = none ∧ c.session_key = some sk ∧
          c.status = CartStatus.active) := by
        intro hx
        exact hc ⟨hx.2.1, hx.1, hx.2.2⟩
      simp [countSessionActive, hc', ih h]

lemma countUserActive_demote_le (uid cid : Nat) (l : List Cart) :
    countUserActive uid
      (l.map fun x => if x.id = cid then { x with status := CartStatus.abandoned } else x)
      ≤ countUserActive uid l := by
  induction l with
  | nil => simp [countUserActive]
  | cons c l ih =>
    simp only [List.map_cons, countUserActive]
    by_cases hc : c.id = cid
    · simp [hc]
      omega
    · simp [hc]
      omega

lemma countSessionActive_demote_le (sk : String) (cid : Nat) (l : List Cart) :
    countSessionActive sk
      (l.map fun x => if x.id = cid then { x with status := CartStatus.abandoned } else x)
      ≤ countSessionActive sk l := by
  induction l with
  | nil => simp [countSessionActive]
  | cons c l ih =>
    simp only [List.map_cons, countSessionActive]
    by_cases hc : c.id = cid
    · simp [hc]
      omega
    · simp [hc]
      omega

lemma countUserActive_remove_le (uid cid : Nat) (l : List Cart) :
    countUserActive uid (removeCart cid l) ≤ countUserActive uid l := by
  induction l with
  | nil => simp [removeCart, countUserActive]
  | cons c l ih =>
    unfold removeCart
    by_cases hc : c.id = cid
    · rw [if_pos hc]
      simp only [countUserActive]
      omega
    · rw [if_neg hc]
      simp only [countUserActive]
      omega

lemma countSessionActive_remove_le (sk : String) (cid : Nat) (l : List Cart) :
    countSessionActive sk (removeCart cid l) ≤ countSessionActive sk l := by
  induction l with
  | nil => simp [removeCart, countSessionActive]
  | cons c l ih =>
    unfold removeCart
    by_cases hc : c.id = cid
    · rw [if_pos hc]
      simp only [countSessionActive]
      omega
    · rw [if_neg hc]
      simp only [countSessionActive]
      omega

lemma uniqueActive_of_carts_eq {db1 db2 : DB} (h : db1.carts = db2.carts) :
    UniqueActive db2 → UniqueActive db1 := by
  intro hu
  unfold UniqueActive at *
  rw [h]
  exact hu

lemma get_user_cart_carts (db : DB) (uid : Nat) :
    (get_user_cart db uid).2 = db ∨
    (findActiveUserCart uid db.carts = none ∧
      (get_user_cart db uid).2.carts = db.carts ++
        [{ id := db.nextId, user_id := some uid, session_key := none,
           status := CartStatus.active, shipping_cost := 0, discount_amount := 0,
           tax_amount := 0 }]) := by
  unfold get_user_cart
  cases hf : findActiveUserCart uid db.carts with
  | some c => exact Or.inl rfl
  | none => exact Or.inr ⟨rfl, rfl⟩

lemma get_session_cart_carts (db : DB) (sk : String) :
    (get_session_cart db sk).2 = db ∨
    (findActiveSessionCart sk db.carts = none ∧
      (get_session_cart db sk).2.carts = db.carts ++
        [{ id := db.nextId, user_id := none, session_key := some sk,
           status := CartStatus.active, shipping_cost := 0, discount_amount := 0,
           tax_amount := 0 }]) := by
  unfold get_session_cart
  cases hf : findActiveSessionCart sk db.carts with
  | some c => exact Or.inl rfl
  | none => exact Or.inr ⟨rfl, rfl⟩

lemma get_user_cart_unique (db : DB) (uid : Nat) (h : UniqueActive db) :
    UniqueActive (get_user_cart db uid).2 := by
  rcases get_user_cart_carts db uid with heq | ⟨hf, heq⟩
  · rw [heq]; exact h
  · constructor
    · intro u
      rw [heq, countUserActive_append]
      by_cases hu : u = uid
      · subst hu
        have h0 := findActiveUserCart_none_count u db.carts hf
        have h1 : countUserActive u
            [{ id := db.nextId, user_id := some u, session_key := none,
               status := CartStatus.active, shipping_cost := 0, discount_amount := 0,
               tax_amount := 0 }] = 1 := by
          simp [countUserActive]
        omega
      · have hu' : uid ≠ u := fun e => hu e.symm
        have h1 : countUserActive u
            [{ id := db.nextId, user_id := some uid, session_key := none,
               status := CartStatus.active, shipping_cost := 0, discount_amount := 0,
               tax_amount := 0 }] = 0 := by
          simp [countUserActive, hu']
        have h2 := h.1 u
        omega
    · intro sk
      rw [heq, countSessionActive_append]
      have h1 : countSessionActive sk
          [{ id := db.nextId, user_id := some uid, session_key := none,
             status := CartStatus.active, shipping_cost := 0, discount_amount := 0,
             tax_amount := 0 }] = 0 := by
        simp [countSessionActive]
      have h2 := h.2 sk
      omega

lemma get_session_cart_unique (db : DB) (sk : String) (h : UniqueActive db) :
    UniqueActive (get_session_cart db sk).2 := by
  rcases get_session_cart_carts db sk with heq | ⟨hf, heq⟩
  · rw [heq]; exact h
  · constructor
    · intro u
      rw [heq, countUserActive_append]
      have h1 : countUserActive u
          [{ id := db.nextId, user_id := none, session_key := some sk,
             status := CartStatus.active, shipping_cost := 0, discount_amount := 0,
             tax_amount := 0 }] = 0 := by
        simp [countUserActive]
      have h2 := h.1 u
      omega
    · intro s
      rw [heq, countSessionActive_append]
      by_cases hs : s = sk
      · subst hs
        have h0 := findActiveSessionCart_none_count s db.carts hf
        have h1 : countSessionActive s
            [{ id := db.nextId, user_id := none, session_key := some s,
               status := CartStatus.active, shipping_cost := 0, discount_amount := 0,
               tax_amount := 0 }] = 1 := by
          simp [countSessionActive]
        omega
      · have hs' : sk ≠ s := fun e => hs e.symm
        have h1 : countSessionActive s
            [{ id := db.nextId, user_id := none, session_key := some sk,
               status := CartStatus.active, shipping_cost := 0, discount_amount := 0,
               tax_amount := 0 }] = 0 := by
          simp [countSessionActive, hs']
        have h2 := h.2 s
        omega

lemma update_or_create_item_carts (db : DB) (cid pid : Nat) (q : Int)
    (pd : ProductData) : ((update_or_create_item db cid pid q pd).1).carts = db.carts := by
  unfold update_or_create_item
  split <;> rfl

lemma addItemWrite_carts (db : DB) (cid pid : Nat) (q : Int) (pd : ProductData) :
    (addItemWrite db cid pid q pd).carts = db.carts := by
  simp only [addItemWrite]
  split
  · exact update_or_create_item_carts db cid pid q pd
  · exact update_or_create_item_carts db cid pid q pd

lemma addItemToCart_carts (db : DB) (cid : Nat) (po : Upstream) (pid : Nat) (q : Int) :
    ((addItemToCart db cid po pid q).1).carts = db.carts := by
  unfold addItemToCart
  split
  · rfl
  · cases hg : get_product po with
    | none => rfl
    | some pd => exact addItemWrite_carts db cid pid q pd

lemma addToCartView_carts_cases (db : DB) (r : Requester) (fresh : String)
    (uo : UserUpstream) (po : Upstream) (pid : Nat) (q : Int) :
    ((addToCartView db r fresh uo po pid q).1).carts = db.carts ∨
    (∃ uid, ((addToCartView db r fresh uo po pid q).1).carts =
      (get_user_cart db uid).2.carts) ∨
    (∃ skey, ((addToCartView db r fresh uo po pid q).1).carts =
      (get_session_cart db skey).2.carts) := by
  unfold addToCartView
  by_cases hq : q < 1
  · rw [if_pos hq]
    exact Or.inl rfl
  · rw [if_neg hq]
    cases r with
    | user uid sk =>
      by_cases hue : user_exists uo = false
      · refine Or.inl ?_
        show ((if user_exists uo = false
            then (db, Except.error (ApiError.validation "User does not exist"))
            else addItemToCart (get_user_cart db uid).2 (get_user_cart db uid).1
              po pid q).1).carts = db.carts
        rw [if_pos hue]
      · refine Or.inr (Or.inl ⟨uid, ?_⟩)
        show ((if user_exists uo = false
            then (db, Except.error (ApiError.validation "User does not exist"))
            else addItemToCart (get_user_cart db uid).2 (get_user_cart db uid).1
              po pid q).1).carts = (get_user_cart db uid).2.carts
        rw [if_neg hue, addItemToCart_carts]
    | anon sk =>
      refine Or.inr (Or.inr ⟨sk.getD fresh, ?_⟩)
      show ((addItemToCart (get_session_cart db (sk.getD fresh)).2
        (get_session_cart db (sk.getD fresh)).1 po pid q).1).carts =
        (get_session_cart db (sk.getD fresh)).2.carts
      rw [addItemToCart_carts]

lemma addToCartView_unique (db : DB) (r : Requester) (fresh : String)
    (uo : UserUpstream) (po : Upstream) (pid : Nat) (q : Int)
    (h : UniqueActive db) :
    UniqueActive ((addToCartView db r fresh uo po pid q).1) := by
  rcases addToCartView_carts_cases db r fresh uo po pid q with hc | ⟨uid, hc⟩ | ⟨skey, hc⟩
  · exact uniqueActive_of_carts_eq hc h
  · exact uniqueActive_of_carts_eq hc (get_user_cart_unique db uid h)
  · exact uniqueActive_of_carts_eq hc (get_session_cart_unique db skey h)

lemma destroy_step_unique (db : DB) (r : Requester) (cid : Nat)
    (h : UniqueActive db) : UniqueActive (step db (Op.opClose r cid)) := by
  show UniqueActive
    (match destroyCartView db r cid with
     | Except.ok db1 => db1
     | Except.error _ => db)
  cases hd : destroyCartView db r cid with
  | error e => exact h
  | ok db1 =>
    unfold destroyCartView at hd
    cases hobj : get_object db r cid with
    | error e =>
      simp [hobj] at hd
    | ok c =>
      simp only [hobj] at hd
      injection hd with hd
      rw [← hd]
      constructor
      · intro u
        exact Nat.le_trans (countUserActive_demote_le u c.id db.carts) (h.1 u)
      · intro sk
        exact Nat.le_trans (countSessionActive_demote_le sk c.id db.carts) (h.2 sk)

lemma foldl_mergeOne_carts (T : Nat) :
    ∀ (L : List CartItem) (db : DB), (L.foldl (mergeOne T) db).carts = db.carts := by
  intro L
  induction L with
  | nil => intro db; rfl
  | cons a L ih =>
    intro db
    rw [List.foldl_cons, ih]
    unfold mergeOne
    split <;> rfl

lemma merge_carts_carts (db : DB) (T S : Nat) :
    (merge_carts db T S).carts = removeCart S db.carts := by
  show removeCart S ((sourceItems S db.items).foldl (mergeOne T) db).carts =
    removeCart S db.carts
  rw [foldl_mergeOne_carts]

lemma mergeCartsView_unique (db : DB) (r : Requester) (h : UniqueActive db) :
    UniqueActive ((mergeCartsView db r).1) := by
  cases r with
  | anon sk => exact h
  | user uid sk =>
    cases sk with
    | none => exact h
    | some skey =>
      show UniqueActive
        (match findActiveSessionCartAny skey (get_user_cart db uid).2.carts with
         | none => ((get_user_cart db uid).2, MergeResp.detail "No session cart to merge")
         | some sc =>
           (merge_carts (get_user_cart db uid).2 (get_user_cart db uid).1 sc.id,
            MergeResp.cart (get_user_cart db uid).1)).1
      cases hf : findActiveSessionCartAny skey (get_user_cart db uid).2.carts with
      | none => exact get_user_cart_unique db uid h
      | some sc =>
        have h1 := get_user_cart_unique db uid h
        constructor
        · intro u
          rw [merge_carts_carts]
          exact Nat.le_trans
            (countUserActive_remove_le u sc.id (get_user_cart db uid).2.carts)
            (h1.1 u)
        · intro s
          rw [merge_carts_carts]
          exact Nat.le_trans
            (countSessionActive_remove_le s sc.id (get_user_cart db uid).2.carts)
            (h1.2 s)

/-- C4 counterexample: from the empty store, two get-or-create calls for
session keys "a" and "b" reach a state satisfying the invariant; the
owner of the second cart then updates it through the detail endpoint,
rewriting its `session_key` to "a", and the resulting state holds TWO
active anonymous carts with session key "a" — the cart-update operation
does not preserve the at-most-one-active-cart-per-owner invariant. -/
theorem c4_update_breaks_unique_active_counterexample :
    UniqueActive c4db ∧ ¬ UniqueActive c4db' := by
  constructor
  · have hc : c4db.carts =
        [{ id := 0, user_id := none, session_key := some "a",
           status := CartStatus.active, shipping_cost := 0, discount_amount := 0,
           tax_amount := 0 },
         { id := 1, user_id := none, session_key := some "b",
           status := CartStatus.active, shipping_cost := 0, discount_amount := 0,
           tax_amount := 0 }] := by decide
    constructor
    · intro uid
      rw [hc]
      simp [countUserActive]
    · intro sk
      rw [hc]
      show (if (none : Option Nat) = none ∧ some "a" = some sk ∧
            CartStatus.active = CartStatus.active then 1 else 0) +
          ((if (none : Option Nat) = none ∧ some "b" = some sk ∧
            CartStatus.active = CartStatus.active then 1 else 0) + 0) ≤ 1
      by_cases h1 : sk = "a"
      · subst h1
        decide
      · rw [if_neg (fun hx => h1 (by injection hx.2.1 with e; exact e.symm))]
        split <;> omega
  · intro hu
    have h2 := hu.2 "a"
    rw [(by decide : countSessionActive "a" c4db'.carts = 2)] at h2
    exact absurd h2 (by decide)

/-- C4 (amended): every operation OTHER than a cart update through the
detail endpoint — get-or-create for a user or a session, add-item,
close, and merge — preserves the at-most-one-active-cart-per-owner
invariant; a cart update can violate it, because the update payload may
rewrite `user_id`/`session_key` to an owner that already has an active
cart (and the model-level uniqueness clause covers only
`(user_id, status)`, not session keys). -/
theorem c4_nonupdate_ops_preserve_unique_active (db : DB) (op : Op)
    (h : UniqueActive db) (hop : op.isCartUpdate = false) :
    UniqueActive (step db op) := by
  cases op with
  | opGetUser uid => exact get_user_cart_unique db uid h
  | opGetSession sk => exact get_session_cart_unique db sk h
  | opAddItem r fresh uo po pid q => exact addToCartView_unique db r fresh uo po pid q h
  | opUpdate r cid p => simp [Op.isCartUpdate] at hop
  | opClose r cid => exact destroy_step_unique db r cid h
  | opMerge r => exact mergeCartsView_unique db r h

/-- C4 witness: the empty store satisfies the invariant, and a
get-or-create call preserves it. -/
theorem c4_nonupdate_ops_preserve_unique_active_witness :
    UniqueActive DB.empty ∧ Op.isCartUpdate (Op.opGetUser 0) = false ∧
    UniqueActive (step DB.empty (Op.opGetUser 0)) :=
  ⟨⟨fun _ => Nat.zero_le 1, fun _ => Nat.zero_le 1⟩, rfl,
   c4_nonupdate_ops_preserve_unique_active DB.empty (Op.opGetUser 0)
     ⟨fun _ => Nat.zero_le 1, fun _ => Nat.zero_le 1⟩ rfl⟩

/-! ## C3/C8: correctness of `merge_carts` -/

lemma snapEq_refl (i : CartItem) : snapEq i i := ⟨rfl, rfl, rfl, rfl, rfl⟩

lemma snapEq_trans {a b c : CartItem} (h1 : snapEq a b) (h2 : snapEq b c) :
    snapEq a c :=
  ⟨h1.1.trans h2.1, h1.2.1.trans h2.2.1, h1.2.2.1.trans h2.2.2.1,
   h1.2.2.2.1.trans h2.2.2.2.1, h1.2.2.2.2.trans h2.2.2.2.2⟩

lemma itemQty_append (cid pid : Nat) (l1 l2 : List CartItem) :
    itemQty cid pid (l1 ++ l2) = itemQty cid pid l1 + itemQty cid pid l2 := by
  induction l1 with
  | nil => simp [itemQty]
  | cons i l ih =>
    show (if i.cartId = cid ∧ i.product_id = pid then i.quantity else 0) +
        itemQty cid pid (l ++ l2) =
      (if i.cartId = cid ∧ i.product_id = pid then i.quantity else 0) +
        itemQty cid pid l + itemQty cid pid l2
    rw [ih]
    omega

lemma itemRows_append (cid pid : Nat) (l1 l2 : List CartItem) :
    itemRows cid pid (l1 ++ l2) = itemRows cid pid l1 + itemRows cid pid l2 := by
  induction l1 with
  | nil => simp [itemRows]
  | cons i l ih =>
    show (if i.cartId = cid ∧ i.product_id = pid then 1 else 0) +
        itemRows cid pid (l ++ l2) =
      (if i.cartId = cid ∧ i.product_id = pid then 1 else 0) +
        itemRows cid pid l + itemRows cid pid l2
    rw [ih]
    omega

lemma hasCartItem_false_rows (cid pid : Nat) :
    ∀ l, hasCartItem cid pid l = false → itemRows cid pid l = 0 := by
  intro l
  induction l with
  | nil => intro _; rfl
  | cons i l ih =>
    intro h
    unfold hasCartItem at h
    by_cases hc : i.cartId = cid ∧ i.product_id = pid
    · rw [if_pos hc] at h
      exact Bool.noConfusion h
    · rw [if_neg hc] at h
      simp [itemRows, hc, ih h]

lemma mem_hasCartItem {cid pid : Nat} {l : List CartItem} {i : CartItem}
    (hi : i ∈ l) (h1 : i.cartId = cid) (h2 : i.product_id = pid) :
    hasCartItem cid pid l = true := by
  induction l with
  | nil => cases hi
  | cons j l ih =>
    unfold hasCartItem
    rcases List.mem_cons.mp hi with rfl | hi'
    · rw [if_pos ⟨h1, h2⟩]
    · by_cases hc : j.cartId = cid ∧ j.product_id = pid
      · rw [if_pos hc]
      · rw [if_neg hc]
        exact ih hi'

lemma rows_pos_of_mem {cid pid : Nat} {l : List CartItem} {i : CartItem}
    (hi : i ∈ l) (h1 : i.cartId = cid) (h2 : i.product_id = pid) :
    1 ≤ itemRows cid pid l := by
  induction l with
  | nil => cases hi
  | cons j l ih =>
    show 1 ≤ (if j.cartId = cid ∧ j.product_id = pid then 1 else 0) + itemRows cid pid l
    rcases List.mem_cons.mp hi with rfl | hi'
    · rw [if_pos ⟨h1, h2⟩]
      omega
    · have := ih hi'
      omega

lemma incFirst_of_not_has (cid pid : Nat) (q : Int) :
    ∀ l, hasCartItem cid pid l = false → incFirst cid pid q l = l := by
  intro l
  induction l with
  | nil => intro _; rfl
  | cons i l ih =>
    intro h
    unfold hasCartItem at h
    by_cases hc : i.cartId = cid ∧ i.product_id = pid
    · rw [if_pos hc] at h
      exact Bool.noConfusion h
    · rw [if_neg hc] at h
      unfold incFirst
      rw [if_neg hc, ih h]

lemma incFirst_id_map (cid pid : Nat) (q : Int) :
    ∀ l, (incFirst cid pid q l).map (fun i => i.id) = l.map (fun i => i.id) := by
  intro l
  induction l with
  | nil => rfl
  | cons i l ih =>
    unfold incFirst
    by_cases hc : i.cartId = cid ∧ i.product_id = pid
    · rw [if_pos hc]
      simp
    · rw [if_neg hc]
      simp only [List.map_cons, ih]

lemma incFirst_rows (c p cid pid : Nat) (q : Int) :
    ∀ l, itemRows c p (incFirst cid pid q l) = itemRows c p l := by
  intro l
  induction l with
  | nil => rfl
  | cons i l ih =>
    unfold incFirst
    by_cases hc : i.cartId = cid ∧ i.product_id = pid
    · rw [if_pos hc]
      simp [itemRows]
    · rw [if_neg hc]
      simp only [itemRows, ih]

lemma incFirst_mem_of_not_match {cid pid : Nat} {q : Int} {l : List CartItem}
    {i : CartItem} (hi : i ∈ l) (hne : ¬ (i.cartId = cid ∧ i.product_id = pid)) :
    i ∈ incFirst cid pid q l := by
  induction l with
  | nil => cases hi
  | cons j l ih =>
    unfold incFirst
    rcases List.mem_cons.mp hi with rfl | hi'
    · rw [if_neg hne]
      exact List.mem_cons_self _ _
    · by_cases hc : j.cartId = cid ∧ j.product_id = pid
      · rw [if_pos hc]
        exact List.mem_cons_of_mem _ hi'
      · rw [if_neg hc]
        exact List.mem_cons_of_mem _ (ih hi')

lemma incFirst_mem_inc {cid pid : Nat} {q : Int} {l : List CartItem} {i : CartItem}
    (hi : i ∈ l) (h1 : i.cartId = cid) (h2 : i.product_id = pid)
    (hrow : itemRows cid pid l ≤ 1) :
    { i with quantity := i.quantity + q } ∈ incFirst cid pid q l := by
  induction l with
  | nil => cases hi
  | cons j l ih =>
    unfold incFirst
    by_cases hc : j.cartId = cid ∧ j.product_id = pid
    · rw [if_pos hc]
      rcases List.mem_cons.mp hi with rfl | hi'
      · exact List.mem_cons_self _ _
      · exfalso
        have hj : 1 ≤ itemRows cid pid l := rows_pos_of_mem hi' h1 h2
        have : itemRows cid pid (j :: l) =
            (if j.cartId = cid ∧ j.product_id = pid then 1 else 0) +
              itemRows cid pid l := rfl
        rw [this, if_pos hc] at hrow
        omega
    · rw [if_neg hc]
      rcases List.mem_cons.mp hi with rfl | hi'
      · exact absurd ⟨h1, h2⟩ hc
      · have hrl : itemRows cid pid l ≤ 1 := by
          have : itemRows cid pid (j :: l) =
              (if j.cartId = cid ∧ j.product_id = pid then 1 else 0) +
                itemRows cid pid l := rfl
          rw [this, if_neg hc] at hrow
          omega
        exact List.mem_cons_of_mem _ (ih hi' hrl)

lemma incFirst_qty (c p cid pid : Nat) (q : Int) :
    ∀ l, hasCartItem cid pid l = true →
      itemQty c p (incFirst cid pid q l) =
        itemQty c p l + (if c = cid ∧ p = pid then q else 0) := by
  intro l
  induction l with
  | nil => intro h; exact Bool.noConfusion h
  | cons i l ih =>
    intro h
    unfold incFirst
    by_cases hc : i.cartId = cid ∧ i.product_id = pid
    · rw [if_pos hc]
      by_cases hcp : c = cid ∧ p = pid
      · obtain ⟨e1, e2⟩ := hcp
        subst e1
        subst e2
        have hm : i.cartId = c ∧ i.product_id = p := hc
        simp only [itemQty, hm, if_pos hm, and_self, if_pos (And.intro rfl rfl)]
        simp [hm]
        omega
      · have hne : ¬ (i.cartId = c ∧ i.product_id = p) := by
          rintro ⟨f1, f2⟩
          exact hcp ⟨f1.symm.trans hc.1, f2.symm.trans hc.2⟩
        simp only [itemQty]
        rw [if_neg hne, if_neg hcp, if_neg (by simpa using hne)]
        omega
    · rw [if_neg hc]
      unfold hasCartItem at h
      rw [if_neg hc] at h
      simp only [itemQty, ih h]
      omega

lemma relinkItem_id_map (iid target : Nat) :
    ∀ l, (relinkItem iid target l).map (fun i => i.id) = l.map (fun i => i.id) := by
  intro l
  induction l with
  | nil => rfl
  | cons j l ih =>
    show ((if j.id = iid then { j with cartId := target } else j) ::
        relinkItem iid target l).map (fun i => i.id) = _
    simp only [List.map_cons, ih]
    congr 1
    by_cases hj : j.id = iid
    · rw [if_pos hj]
    · rw [if_neg hj]

lemma relinkItem_of_not_mem (iid target : Nat) :
    ∀ l : List CartItem, (∀ i ∈ l, i.id ≠ iid) → relinkItem iid target l = l := by
  intro l
  induction l with
  | nil => intro _; rfl
  | cons j l ih =>
    intro h
    show (if j.id = iid then { j with cartId := target } else j) ::
      relinkItem iid target l = j :: l
    rw [if_neg (h j (List.mem_cons_self _ _)),
      ih (fun i hi => h i (List.mem_cons_of_mem _ hi))]

lemma relinkItem_mem_of_ne {iid target : Nat} {l : List CartItem} {i : CartItem}
    (hi : i ∈ l) (hne : i.id ≠ iid) : i ∈ relinkItem iid target l := by
  show i ∈ l.map fun x => if x.id = iid then { x with cartId := target } else x
  have h : (if i.id = iid then { i with cartId := target } else i) ∈
      l.map (fun x => if x.id = iid then { x with cartId := target } else x) :=
    List.mem_map_of_mem _ hi
  rwa [if_neg hne] at h

lemma relink_qty_T {l : List CartItem} {a : CartItem}
    (ha : a ∈ l) (hnd : (l.map (fun i => i.id)).Nodup) {T : Nat}
    (haT : a.cartId ≠ T) (p : Nat) :
    itemQty T p (relinkItem a.id T l) =
      itemQty T p l + (if a.product_id = p then a.quantity else 0) := by
  induction l with
  | nil => cases ha
  | cons j l ih =>
    have hnd' : (l.map (fun i => i.id)).Nodup := (List.nodup_cons.mp hnd).2
    have hjid : j.id ∉ l.map (fun i => i.id) := (List.nodup_cons.mp hnd).1
    show itemQty T p ((if j.id = a.id then { j with cartId := T } else j) ::
      relinkItem a.id T l) = _
    rcases List.mem_cons.mp ha with ha0 | ha'
    · subst ha0
      rw [if_pos rfl]
      have hfix : relinkItem a.id T l = l :=
        relinkItem_of_not_mem _ _ l
          (fun i hi he => hjid (he ▸ List.mem_map_of_mem (fun x => x.id) hi))
      rw [hfix]
      show (if T = T ∧ a.product_id = p then a.quantity else 0) + itemQty T p l =
        (if a.cartId = T ∧ a.product_id = p then a.quantity else 0) +
          itemQty T p l + (if a.product_id = p then a.quantity else 0)
      by_cases hp : a.product_id = p
      · rw [if_pos ⟨rfl, hp⟩, if_neg (fun hx => haT hx.1), if_pos hp]
        omega
      · rw [if_neg (fun hx => hp hx.2), if_neg (fun hx => hp hx.2), if_neg hp]
        omega
    · have hja : j.id ≠ a.id :=
        fun he => hjid (he ▸ List.mem_map_of_mem (fun x => x.id) ha')
      rw [if_neg hja]
      show (if j.cartId = T ∧ j.product_id = p then j.quantity else 0) +
          itemQty T p (relinkItem a.id T l) =
        (if j.cartId = T ∧ j.product_id = p then j.quantity else 0) +
          itemQty T p l + (if a.product_id = p then a.quantity else 0)
      rw [ih ha' hnd']
      omega

lemma relink_rows_T {l : List CartItem} {a : CartItem}
    (ha : a ∈ l) (hnd : (l.map (fun i => i.id)).Nodup) {T : Nat}
    (haT : a.cartId ≠ T) (p : Nat) :
    itemRows T p (relinkItem a.id T l) =
      itemRows T p l + (if a.product_id = p then 1 else 0) := by
  induction l with
  | nil => cases ha
  | cons j l ih =>
    have hnd' : (l.map (fun i => i.id)).Nodup := (List.nodup_cons.mp hnd).2
    have hjid : j.id ∉ l.map (fun i => i.id) := (List.nodup_cons.mp hnd).1
    show itemRows T p ((if j.id = a.id then { j with cartId := T } else j) ::
      relinkItem a.id T l) = _
    rcases List.mem_cons.mp ha with ha0 | ha'
    · subst ha0
      rw [if_pos rfl]
      have hfix : relinkItem a.id T l = l :=
        relinkItem_of_not_mem _ _ l
          (fun i hi he => hjid (he ▸ List.mem_map_of_mem (fun x => x.id) hi))
      rw [hfix]
      show (if T = T ∧ a.product_id = p then 1 else 0) + itemRows T p l =
        (if a.cartId = T ∧ a.product_id = p then 1 else 0) +
          itemRows T p l + (if a.product_id = p then 1 else 0)
      by_cases hp : a.product_id = p
      · rw [if_pos ⟨rfl, hp⟩, if_neg (fun hx => haT hx.1), if_pos hp]
        omega
      · rw [if_neg (fun hx => hp hx.2), if_neg (fun hx => hp hx.2), if_neg hp]
        omega
    · have hja : j.id ≠ a.id :=
        fun he => hjid (he ▸ List.mem_map_of_mem (fun x => x.id) ha')
      rw [if_neg hja]
      show (if j.cartId = T ∧ j.product_id = p then 1 else 0) +
          itemRows T p (relinkItem a.id T l) =
        (if j.cartId = T ∧ j.product_id = p then 1 else 0) +
          itemRows T p l + (if a.product_id = p then 1 else 0)
      rw [ih ha' hnd']
      omega

lemma mem_sourceItems {S : Nat} {l : List CartItem} {i : CartItem} :
    i ∈ sourceItems S l ↔ i ∈ l ∧ i.cartId = S := by
  induction l with
  | nil => simp [sourceItems]
  | cons j l ih =>
    unfold sourceItems
    by_cases hc : j.cartId = S
    · rw [if_pos hc]
      constructor
      · intro h
        rcases List.mem_cons.mp h with h0 | h'
        · subst h0
          exact ⟨List.mem_cons_self _ _, hc⟩
        · exact ⟨List.mem_cons_of_mem _ (ih.mp h').1, (ih.mp h').2⟩
      · rintro ⟨hmem, hi⟩
        rcases List.mem_cons.mp hmem with h0 | h'
        · subst h0
          exact List.mem_cons_self _ _
        · exact List.mem_cons_of_mem _ (ih.mpr ⟨h', hi⟩)
    · rw [if_neg hc]
      constructor
      · intro h
        exact ⟨List.mem_cons_of_mem _ (ih.mp h).1, (ih.mp h).2⟩
      · rintro ⟨hmem, hi⟩
        rcases List.mem_cons.mp hmem with h0 | h'
        · subst h0
          exact absurd hi hc
        · exact ih.mpr ⟨h', hi⟩

lemma sourceItems_sublist (S : Nat) :
    ∀ l, List.Sublist (sourceItems S l) l := by
  intro l
  induction l with
  | nil => exact List.Sublist.refl _
  | cons j l ih =>
    unfold sourceItems
    by_cases hc : j.cartId = S
    · rw [if_pos hc]
      exact List.Sublist.cons₂ _ ih
    · rw [if_neg hc]
      exact List.Sublist.cons _ ih

lemma listQty_sourceItems (S p : Nat) :
    ∀ l, listQty p (sourceItems S l) = itemQty S p l := by
  intro l
  induction l with
  | nil => rfl
  | cons i l ih =>
    unfold sourceItems
    by_cases hc : i.cartId = S
    · rw [if_pos hc]
      show (if i.product_id = p then i.quantity else 0) + listQty p (sourceItems S l) =
        (if i.cartId = S ∧ i.product_id = p then i.quantity else 0) + itemQty S p l
      rw [ih]
      by_cases hp : i.product_id = p
      · rw [if_pos hp, if_pos ⟨hc, hp⟩]
      · rw [if_neg hp, if_neg (fun hx => hp hx.2)]
    · rw [if_neg hc]
      show listQty p (sourceItems S l) =
        (if i.cartId = S ∧ i.product_id = p then i.quantity else 0) + itemQty S p l
      rw [ih, if_neg (fun hx => hc hx.1)]
      omega

lemma rows_zero_of_not_mem_products (c p : Nat) :
    ∀ l, p ∉ (sourceItems c l).map (fun i => i.product_id) → itemRows c p l = 0 := by
  intro l
  induction l with
  | nil => intro _; rfl
  | cons i l ih =>
    intro h
    show (if i.cartId = c ∧ i.product_id = p then 1 else 0) + itemRows c p l = 0
    by_cases hc : i.cartId = c
    · unfold sourceItems at h
      rw [if_pos hc, List.map_cons] at h
      have h1 : i.product_id ≠ p := fun he => h (he ▸ List.mem_cons_self _ _)
      have h2 : p ∉ (sourceItems c l).map (fun i => i.product_id) :=
        fun hm => h (List.mem_cons_of_mem _ hm)
      rw [if_neg (fun hx => h1 hx.2), ih h2]
    · unfold sourceItems at h
      rw [if_neg hc] at h
      rw [if_neg (fun hx => hc hx.1), ih h]

lemma rows_le_one_of_nodup (c : Nat) :
    ∀ l, ((sourceItems c l).map (fun i => i.product_id)).Nodup →
      ∀ p, itemRows c p l ≤ 1 := by
  intro l
  induction l with
  | nil => intro _ p; exact Nat.zero_le 1
  | cons i l ih =>
    intro hnd p
    show (if i.cartId = c ∧ i.product_id = p then 1 else 0) + itemRows c p l ≤ 1
    by_cases hc : i.cartId = c
    · unfold sourceItems at hnd
      rw [if_pos hc, List.map_cons] at hnd
      have h1 := (List.nodup_cons.mp hnd).1
      have h2 := (List.nodup_cons.mp hnd).2
      by_cases hp : i.product_id = p
      · rw [if_pos ⟨hc, hp⟩]
        have h0 : itemRows c p l = 0 := rows_zero_of_not_mem_products c p l (hp ▸ h1)
        omega
      · rw [if_neg (fun hx => hp hx.2)]
        have := ih h2 p
        omega
    · rw [if_neg (fun hx => hc hx.1)]
      unfold sourceItems at hnd
      rw [if_neg hc] at hnd
      have := ih hnd p
      omega

lemma removeItems_qty_other (S c p : Nat) (hne : c ≠ S) :
    ∀ l, itemQty c p (removeItemsOfCart S l) = itemQty c p l := by
  intro l
  induction l with
  | nil => rfl
  | cons i l ih =>
    unfold removeItemsOfCart
    by_cases hi : i.cartId = S
    · rw [if_pos hi]
      show itemQty c p (removeItemsOfCart S l) =
        (if i.cartId = c ∧ i.product_id = p then i.quantity else 0) + itemQty c p l
      rw [ih, if_neg (fun hx => hne (hx.1.symm.trans hi))]
      omega
    · rw [if_neg hi]
      show (if i.cartId = c ∧ i.product_id = p then i.quantity else 0) +
          itemQty c p (removeItemsOfCart S l) =
        (if i.cartId = c ∧ i.product_id = p then i.quantity else 0) + itemQty c p l
      rw [ih]

lemma removeItems_rows_other (S c p : Nat) (hne : c ≠ S) :
    ∀ l, itemRows c p (removeItemsOfCart S l) = itemRows c p l := by
  intro l
  induction l with
  | nil => rfl
  | cons i l ih =>
    unfold removeItemsOfCart
    by_cases hi : i.cartId = S
    · rw [if_pos hi]
      show itemRows c p (removeItemsOfCart S l) =
        (if i.cartId = c ∧ i.product_id = p then 1 else 0) + itemRows c p l
      rw [ih, if_neg (fun hx => hne (hx.1.symm.trans hi))]
      omega
    · rw [if_neg hi]
      show (if i.cartId = c ∧ i.product_id = p then 1 else 0) +
          itemRows c p (removeItemsOfCart S l) =
        (if i.cartId = c ∧ i.product_id = p then 1 else 0) + itemRows c p l
      rw [ih]

lemma removeItems_qty_self (S p : Nat) :
    ∀ l, itemQty S p (removeItemsOfCart S l) = 0 := by
  intro l
  induction l with
  | nil => rfl
  | cons i l ih =>
    unfold removeItemsOfCart
    by_cases hi : i.cartId = S
    · rw [if_pos hi]
      exact ih
    · rw [if_neg hi]
      show (if i.cartId = S ∧ i.product_id = p then i.quantity else 0) +
        itemQty S p (removeItemsOfCart S l) = 0
      rw [ih, if_neg (fun hx => hi hx.1)]
      omega

lemma removeItems_mem {S : Nat} {l : List CartItem} {i : CartItem}
    (h : i ∈ removeItemsOfCart S l) : i ∈ l := by
  induction l with
  | nil => cases h
  | cons j l ih =>
    unfold removeItemsOfCart at h
    by_cases hj : j.cartId = S
    · rw [if_pos hj] at h
      exact List.mem_cons_of_mem _ (ih h)
    · rw [if_neg hj] at h
      rcases List.mem_cons.mp h with h0 | h'
      · subst h0
        exact List.mem_cons_self _ _
      · exact List.mem_cons_of_mem _ (ih h')

lemma removeItems_mem_of {S : Nat} {l : List CartItem} {i : CartItem}
    (hi : i ∈ l) (hne : i.cartId ≠ S) : i ∈ removeItemsOfCart S l := by
  induction l with
  | nil => cases hi
  | cons j l ih =>
    unfold removeItemsOfCart
    rcases List.mem_cons.mp hi with h0 | h'
    · subst h0
      rw [if_neg hne]
      exact List.mem_cons_self _ _
    · by_cases hj : j.cartId = S
      · rw [if_pos hj]
        exact ih h'
      · rw [if_neg hj]
        exact List.mem_cons_of_mem _ (ih h')

lemma removeCart_mem {cid : Nat} {l : List Cart} {c : Cart}
    (h : c ∈ removeCart cid l) : c.id ≠ cid := by
  induction l with
  | nil => cases h
  | cons c0 l ih =>
    unfold removeCart at h
    by_cases hc : c0.id = cid
    · rw [if_pos hc] at h
      exact ih h
    · rw [if_neg hc] at h
      rcases List.mem_cons.mp h with h0 | h'
      · subst h0
        exact hc
      · exact ih h'

lemma mergeOne_id_map (T : Nat) (db : DB) (a : CartItem) :
    ((mergeOne T db a).items).map (fun i => i.id) =
      db.items.map (fun i => i.id) := by
  unfold mergeOne
  split
  · exact incFirst_id_map _ _ _ _
  · exact relinkItem_id_map _ _ _

lemma mergeOne_qty_T {db : DB} {a : CartItem} {T S : Nat}
    (hnd : (db.items.map (fun i => i.id)).Nodup)
    (ha : a ∈ db.items) (haS : a.cartId = S) (hST : S ≠ T) (p : Nat) :
    itemQty T p (mergeOne T db a).items =
      itemQty T p db.items + (if a.product_id = p then a.quantity else 0) := by
  unfold mergeOne
  by_cases hhas : hasCartItem T a.product_id db.items = true
  · rw [if_pos hhas]
    show itemQty T p (incFirst T a.product_id a.quantity db.items) = _
    rw [incFirst_qty T p T a.product_id a.quantity db.items hhas]
    by_cases hp : a.product_id = p
    · rw [if_pos ⟨rfl, hp.symm⟩, if_pos hp]
    · rw [if_neg (fun hx => hp hx.2.symm), if_neg hp]
  · rw [if_neg hhas]
    show itemQty T p (relinkItem a.id T db.items) = _
    exact relink_qty_T ha hnd (fun he => hST (haS.symm.trans he)) p

lemma mergeOne_rows_le {db : DB} {a : CartItem} {T S : Nat}
    (hnd : (db.items.map (fun i => i.id)).Nodup)
    (ha : a ∈ db.items) (haS : a.cartId = S) (hST : S ≠ T)
    (hrow : ∀ p, itemRows T p db.items ≤ 1) (p : Nat) :
    itemRows T p (mergeOne T db a).items ≤ 1 := by
  unfold mergeOne
  by_cases hhas : hasCartItem T a.product_id db.items = true
  · rw [if_pos hhas]
    show itemRows T p (incFirst T a.product_id a.quantity db.items) ≤ 1
    rw [incFirst_rows]
    exact hrow p
  · rw [if_neg hhas]
    show itemRows T p (relinkItem a.id T db.items) ≤ 1
    rw [relink_rows_T ha hnd (fun he => hST (haS.symm.trans he)) p]
    by_cases hp : a.product_id = p
    · rw [if_pos hp]
      have hf : hasCartItem T a.product_id db.items = false := by
        revert hhas
        cases hasCartItem T a.product_id db.items <;> simp
      have h0 := hasCartItem_false_rows T a.product_id db.items hf
      rw [hp] at h0
      omega
    · rw [if_neg hp]
      have := hrow p
      omega

lemma mergeOne_mem_src {db : DB} {a j : CartItem} {T S : Nat}
    (hj : j ∈ db.items) (hjS : j.cartId = S) (hST : S ≠ T) (hja : j.id ≠ a.id) :
    j ∈ (mergeOne T db a).items := by
  unfold mergeOne
  by_cases hhas : hasCartItem T a.product_id db.items = true
  · rw [if_pos hhas]
    show j ∈ incFirst T a.product_id a.quantity db.items
    exact incFirst_mem_of_not_match hj (fun hx => hST (hjS.symm.trans hx.1))
  · rw [if_neg hhas]
    show j ∈ relinkItem a.id T db.items
    exact relinkItem_mem_of_ne hj hja

lemma mergeOne_target_item {db : DB} {a i : CartItem} {T S : Nat}
    (hnd : (db.items.map (fun i => i.id)).Nodup)
    (ha : a ∈ db.items) (haS : a.cartId = S) (hST : S ≠ T)
    (hrow : ∀ p, itemRows T p db.items ≤ 1)
    (hi : i ∈ db.items) (hiT : i.cartId = T) :
    ∃ j ∈ (mergeOne T db a).items, j.id = i.id ∧ j.cartId = T ∧
      j.product_id = i.product_id ∧ snapEq j i ∧
      j.quantity = i.quantity +
        (if a.product_id = i.product_id then a.quantity else 0) := by
  unfold mergeOne
  by_cases hhas : hasCartItem T a.product_id db.items = true
  · rw [if_pos hhas]
    by_cases hp : a.product_id = i.product_id
    · refine ⟨{ i with quantity := i.quantity + a.quantity }, ?_, rfl, hiT, rfl,
        ⟨rfl, rfl, rfl, rfl, rfl⟩, ?_⟩
      · show { i with quantity := i.quantity + a.quantity } ∈
          incFirst T a.product_id a.quantity db.items
        exact incFirst_mem_inc hi hiT hp.symm (hrow a.product_id)
      · rw [if_pos hp]
    · refine ⟨i, ?_, rfl, hiT, rfl, snapEq_refl i, ?_⟩
      · show i ∈ incFirst T a.product_id a.quantity db.items
        exact incFirst_mem_of_not_match hi (fun hx => hp hx.2.symm)
      · rw [if_neg hp]
        omega
  · rw [if_neg hhas]
    have hf : hasCartItem T a.product_id db.items = false := by
      revert hhas
      cases hasCartItem T a.product_id db.items <;> simp
    have hp : a.product_id ≠ i.product_id := by
      intro he
      have ht := mem_hasCartItem hi hiT he.symm
      rw [hf] at ht
      exact Bool.noConfusion ht
    have hia : i.id ≠ a.id := by
      intro he
      have hia' : i = a := List.inj_on_of_nodup_map hnd hi ha he
      rw [hia'] at hiT
      exact hST (haS.symm.trans hiT)
    refine ⟨i, ?_, rfl, hiT, rfl, snapEq_refl i, ?_⟩
    · show i ∈ relinkItem a.id T db.items
      exact relinkItem_mem_of_ne hi hia
    · rw [if_neg hp]
      omega

lemma merge_fold {T S : Nat} (hST : S ≠ T) :
    ∀ (L : List CartItem) (db : DB),
      (db.items.map (fun i => i.id)).Nodup →
      (∀ p, itemRows T p db.items ≤ 1) →
      (∀ i ∈ L, i ∈ db.items ∧ i.cartId = S) →
      (L.map (fun i => i.product_id)).Nodup →
      (L.map (fun i => i.id)).Nodup →
      ((L.foldl (mergeOne T) db).items.map (fun i => i.id) =
          db.items.map (fun i => i.id) ∧
       (∀ p, itemQty T p (L.foldl (mergeOne T) db).items =
          itemQty T p db.items + listQty p L) ∧
       (∀ p, itemRows T p (L.foldl (mergeOne T) db).items ≤ 1) ∧
       (∀ i ∈ db.items, i.cartId = T →
         ∃ j ∈ (L.foldl (mergeOne T) db).items, j.id = i.id ∧ j.cartId = T ∧
           j.product_id = i.product_id ∧ snapEq j i ∧
           j.quantity = i.quantity + listQty i.product_id L)) := by
  intro L
  induction L with
  | nil =>
    intro db hnd hrow hmem hpn hin
    refine ⟨rfl, fun p => ?_, hrow, fun i hi hiT => ⟨i, hi, rfl, hiT, rfl,
      snapEq_refl i, ?_⟩⟩
    · show itemQty T p db.items = itemQty T p db.items + 0
      omega
    · show i.quantity = i.quantity + 0
      omega
  | cons a L ih =>
    intro db hnd hrow hmem hpn hin
    obtain ⟨ha, haS⟩ := hmem a (List.mem_cons_self _ _)
    have hin' : a.id ∉ L.map (fun i => i.id) ∧ (L.map (fun i => i.id)).Nodup := by
      rw [List.map_cons] at hin
      exact ⟨(List.nodup_cons.mp hin).1, (List.nodup_cons.mp hin).2⟩
    have hpn' : (L.map (fun i => i.product_id)).Nodup := by
      rw [List.map_cons] at hpn
      exact (List.nodup_cons.mp hpn).2
    have hid1 := mergeOne_id_map T db a
    have hnd1 : ((mergeOne T db a).items.map (fun i => i.id)).Nodup := by
      rw [hid1]
      exact hnd
    have hrow1 : ∀ p, itemRows T p (mergeOne T db a).items ≤ 1 :=
      fun p => mergeOne_rows_le hnd ha haS hST hrow p
    have hmem1 : ∀ i ∈ L, i ∈ (mergeOne T db a).items ∧ i.cartId = S := by
      intro i hiL
      obtain ⟨hiM, hiS⟩ := hmem i (List.mem_cons_of_mem _ hiL)
      have hia : i.id ≠ a.id :=
        fun he => hin'.1 (he ▸ List.mem_map_of_mem (fun x => x.id) hiL)
      exact ⟨mergeOne_mem_src hiM hiS hST hia, hiS⟩
    have IH := ih (mergeOne T db a) hnd1 hrow1 hmem1 hpn' hin'.2
    rw [List.foldl_cons]
    refine ⟨?_, ?_, IH.2.2.1, ?_⟩
    · rw [IH.1, hid1]
    · intro p
      rw [IH.2.1 p, mergeOne_qty_T hnd ha haS hST p]
      show itemQty T p db.items + (if a.product_id = p then a.quantity else 0) +
          listQty p L =
        itemQty T p db.items +
          ((if a.product_id = p then a.quantity else 0) + listQty p L)
      omega
    · intro i hi hiT
      obtain ⟨j1, hj1mem, hj1id, hj1T, hj1prod, hj1snap, hj1q⟩ :=
        mergeOne_target_item hnd ha haS hST hrow hi hiT
      obtain ⟨j, hjmem, hjid, hjT, hjprod, hjsnap, hjq⟩ :=
        IH.2.2.2 j1 hj1mem hj1T
      refine ⟨j, hjmem, hjid.trans hj1id, hjT, hjprod.trans hj1prod,
        snapEq_trans hjsnap hj1snap, ?_⟩
      rw [hjq, hj1q, hj1prod]
      show i.quantity + (if a.product_id = i.product_id then a.quantity else 0) +
          listQty i.product_id L =
        i.quantity + ((if a.product_id = i.product_id then a.quantity else 0) +
          listQty i.product_id L)
      omega

/-- C3: merging a source cart into a distinct target cart (well-formed
store: distinct item ids, at most one row per product within each of the
two carts) removes the source cart, makes the target's per-product
quantity the sum of the two carts' per-product quantities, keeps at most
one row per product in the target, and creates no new item row. -/
theorem c3_merge_carts_correct (db : DB) (T S : Nat) (hST : S ≠ T)
    (hnd : (db.items.map (fun i => i.id)).Nodup)
    (hTnd : ((sourceItems T db.items).map (fun i => i.product_id)).Nodup)
    (hSnd : ((sourceItems S db.items).map (fun i => i.product_id)).Nodup) :
    (∀ c ∈ (merge_carts db T S).carts, c.id ≠ S) ∧
    (∀ p, itemQty T p (merge_carts db T S).items =
      itemQty T p db.items + itemQty S p db.items) ∧
    (∀ p, itemRows T p (merge_carts db T S).items ≤ 1) ∧
    (∀ j ∈ (merge_carts db T S).items, ∃ i ∈ db.items, i.id = j.id) ∧
    (∀ p, itemQty S p (merge_carts db T S).items = 0) := by
  have hrow : ∀ p, itemRows T p db.items ≤ 1 :=
    rows_le_one_of_nodup T db.items hTnd
  have hmem : ∀ i ∈ sourceItems S db.items, i ∈ db.items ∧ i.cartId = S :=
    fun i hi => mem_sourceItems.mp hi
  have hsub : List.Sublist ((sourceItems S db.items).map (fun i => i.id))
      (db.items.map (fun i => i.id)) := (sourceItems_sublist S db.items).map _
  have hin : ((sourceItems S db.items).map (fun i => i.id)).Nodup :=
    hnd.sublist hsub
  have F := merge_fold hST (sourceItems S db.items) db hnd hrow hmem hSnd hin
  have hitems : (merge_carts db T S).items =
      removeItemsOfCart S ((sourceItems S db.items).foldl (mergeOne T) db).items := rfl
  have hcarts : (merge_carts db T S).carts =
      removeCart S ((sourceItems S db.items).foldl (mergeOne T) db).carts := rfl
  refine ⟨?_, ?_, ?_, ?_, ?_⟩
  · intro c hc
    rw [hcarts] at hc
    exact removeCart_mem hc
  · intro p
    rw [hitems, removeItems_qty_other S T p (fun he => hST he.symm), F.2.1 p,
      listQty_sourceItems]
  · intro p
    rw [hitems, removeItems_rows_other S T p (fun he => hST he.symm)]
    exact F.2.2.1 p
  · intro j hj
    rw [hitems] at hj
    have hj1 : j ∈ ((sourceItems S db.items).foldl (mergeOne T) db).items :=
      removeItems_mem hj
    have hjid : j.id ∈ ((sourceItems S db.items).foldl (mergeOne T) db).items.map
        (fun i => i.id) := List.mem_map_of_mem _ hj1
    rw [F.1] at hjid
    obtain ⟨i, hi, hie⟩ := List.mem_map.mp hjid
    exact ⟨i, hi, hie⟩
  · intro p
    rw [hitems, removeItems_qty_self]

/-- C3 witness: the spec's example — merging cart A (id 1, session cart,
product X qty 2) into cart B (id 0, user cart, product X qty 3 and
product Y qty 1) yields B with X qty 5 and Y qty 1, exactly one X row,
and no cart with id 1 remains. -/
theorem c3_merge_carts_correct_witness :
    itemQty 0 120 (merge_carts dbEx 0 1).items = 5 ∧
    itemQty 0 121 (merge_carts dbEx 0 1).items = 1 ∧
    (∀ c ∈ (merge_carts dbEx 0 1).carts, c.id ≠ 1) ∧
    itemRows 0 120 (merge_carts dbEx 0 1).items = 1 := by
  have h := c3_merge_carts_correct dbEx 0 1 (by decide) (by decide) (by decide)
    (by decide)
  refine ⟨?_, ?_, h.1, by decide⟩
  · rw [h.2.1 120]
    decide
  · rw [h.2.1 121]
    decide

/-- C8: when the same product exists in both carts, the merge keeps the
target row (same id) with all five snapshot columns unchanged — the
pre-existing target values win — and only its quantity changes, growing
by the source cart's quantity for that product. -/
theorem c8_merge_keeps_target_snapshot (db : DB) (T S : Nat) (hST : S ≠ T)
    (hnd : (db.items.map (fun i => i.id)).Nodup)
    (hTnd : ((sourceItems T db.items).map (fun i => i.product_id)).Nodup)
    (hSnd : ((sourceItems S db.items).map (fun i => i.product_id)).Nodup)
    (i : CartItem) (hi : i ∈ db.items) (hiT : i.cartId = T)
    (_hcol : hasCartItem S i.product_id db.items = true) :
    ∃ j ∈ (merge_carts db T S).items, j.id = i.id ∧ j.cartId = T ∧
      j.product_id = i.product_id ∧
      j.product_name = i.product_name ∧ j.product_sku = i.product_sku ∧
      j.price_at_addition = i.price_at_addition ∧ j.image_url = i.image_url ∧
      j.product_category = i.product_category ∧
      j.quantity = i.quantity + itemQty S i.product_id db.items := by
  have hrow : ∀ p, itemRows T p db.items ≤ 1 :=
    rows_le_one_of_nodup T db.items hTnd
  have hmem : ∀ x ∈ sourceItems S db.items, x ∈ db.items ∧ x.cartId = S :=
    fun x hx => mem_sourceItems.mp hx
  have hsub : List.Sublist ((sourceItems S db.items).map (fun i => i.id))
      (db.items.map (fun i => i.id)) := (sourceItems_sublist S db.items).map _
  have hin : ((sourceItems S db.items).map (fun i => i.id)).Nodup :=
    hnd.sublist hsub
  have F := merge_fold hST (sourceItems S db.items) db hnd hrow hmem hSnd hin
  have hitems : (merge_carts db T S).items =
      removeItemsOfCart S ((sourceItems S db.items).foldl (mergeOne T) db).items := rfl
  obtain ⟨j, hjmem, hjid, hjT, hjprod, hjsnap, hjq⟩ := F.2.2.2 i hi hiT
  refine ⟨j, ?_, hjid, hjT, hjprod, hjsnap.1, hjsnap.2.1, hjsnap.2.2.1,
    hjsnap.2.2.2.1, hjsnap.2.2.2.2, ?_⟩
  · rw [hitems]
    exact removeItems_mem_of hjmem (fun he => hST (he.symm.trans hjT))
  · rw [hjq, listQty_sourceItems]

/-- C8 witness: in the spec's example both carts hold product X (the
target recorded price 500, the source 600); after the merge the target
row keeps id 10, name "X", sku "sx" and price 500, and its quantity is
3 + 2. -/
theorem c8_merge_keeps_target_snapshot_witness :
    hasCartItem 1 itemBX.product_id dbEx.items = true ∧
    ∃ j ∈ (merge_carts dbEx 0 1).items, j.id = itemBX.id ∧ j.cartId = 0 ∧
      j.product_id = itemBX.product_id ∧
      j.product_name = itemBX.product_name ∧ j.product_sku = itemBX.product_sku ∧
      j.price_at_addition = itemBX.price_at_addition ∧
      j.image_url = itemBX.image_url ∧
      j.product_category = itemBX.product_category ∧
      j.quantity = itemBX.quantity + itemQty 1 itemBX.product_id dbEx.items :=
  ⟨by decide,
   c8_merge_keeps_target_snapshot dbEx 0 1 (by decide) (by decide) (by decide)
     (by decide) itemBX (by decide) (by decide) (by decide)⟩

end CartService
